import Mathlib

/-!
# Verification development for `src/script.js`

The page script has two parts: the scroll-driven slide controller (the
`slideObserver` callback) and the submission heatmap
(`initializeDMOJHeatmap` with its inner functions `parseDMOJCalendar`,
`generateSampleData`, `updateHeatmap` and the two year-navigation click
handlers).

Modelling conventions.

* A JavaScript number that holds an integer is the `Int` of its value.  Years,
  indices and time values stay far below 2^53, where arithmetic on doubles is
  exact; the submission total is summed with `jsAdd`, the addition of doubles
  (round to nearest, ties to even).  `NaN`, the infinities and the finite range
  of `Date` time values are not modelled, and a number is printed in plain
  decimal digits (its form below 10^21).
* A `Date` object is its time value: milliseconds since the epoch, UTC.  The
  local time zone is a fixed offset `off`, in minutes east of UTC, so
  `LocalTime(t) = t + off * 60000`.  The `Date` operations follow the
  ECMAScript definitions (`Day`, `DayFromYear`, `YearFromTime`,
  `MonthFromTime`, `DateFromTime`, `WeekDay`, `MakeDay`, `MakeDate`).
* A JavaScript object used as a dictionary is an association list in
  insertion order; reading a property returns the first binding of the key.
* The DOM written by `updateHeatmap` is a record of the attributes and texts
  the function sets; an element is identified by its index in document order.
* What the environment supplies is a parameter: the current time `now`, the
  values of `Math.random()`, the built-ins `parseInt` and `new Date(text)`, the
  outcome of the fetch, and the entries the intersection observer delivers.

Contents: the embedding (date arithmetic, objects and arrays, the renderer,
the widget and its navigation handlers, data acquisition, the slide
controller), then the properties: the displayed total; the shape of the grid,
its dated squares and their date texts; the synthetic dataset; year
navigation; the slide controller; the commit of one dataset.
-/

namespace Script

/-! ## ECMAScript date arithmetic -/

def msPerDay : Int := 86400000

def msPerMinute : Int := 60000

/-- ES `Day(t)`: the day number of a time value. -/
def day (t : Int) : Int := t / msPerDay

/-- ES `TimeWithinDay(t)`. -/
def timeWithinDay (t : Int) : Int := t % msPerDay

/-- ES `DaysInYear(y) = 366`. -/
def inLeapYear (y : Int) : Bool :=
  if y % 4 ≠ 0 then false
  else if y % 100 ≠ 0 then true
  else if y % 400 ≠ 0 then false
  else true

/-- ES `DaysInYear(y)`. -/
def daysInYearES (y : Int) : Int := if inLeapYear y then 366 else 365

/-- ES `DayFromYear(y)`: the day number of January 1 of year `y`. -/
def dayFromYear (y : Int) : Int :=
  365 * (y - 1970) + (y - 1969) / 4 - (y - 1901) / 100 + (y - 1601) / 400

/-- ES `YearFromTime`, on day numbers: the largest `y` with
`DayFromYear(y) ≤ d` (see `yearFromDay_spec`), found from an estimate that is
off by at most one. -/
def yearFromDay (d : Int) : Int :=
  let y0 := 1970 + (d * 400) / 146097
  if dayFromYear (y0 + 1) ≤ d then y0 + 1
  else if dayFromYear y0 ≤ d then y0
  else y0 - 1

/-- ES `DayWithinYear`. -/
def dayWithinYear (d : Int) : Int := d - dayFromYear (yearFromDay d)

/-- Number of days of the year that precede month `m` (0 = January), the
boundaries of the ES `MonthFromTime` table. -/
def daysBeforeMonth (leap : Bool) (m : Int) : Int :=
  let l : Int := if leap then 1 else 0
  if m ≤ 0 then 0
  else if m = 1 then 31
  else if m = 2 then 59 + l
  else if m = 3 then 90 + l
  else if m = 4 then 120 + l
  else if m = 5 then 151 + l
  else if m = 6 then 181 + l
  else if m = 7 then 212 + l
  else if m = 8 then 243 + l
  else if m = 9 then 273 + l
  else if m = 10 then 304 + l
  else 334 + l

/-- The ES `MonthFromTime` table: the month (0 = January) of the day `w` within
a year, leap or not. -/
def monthOfDayWithinYear (leap : Bool) (w : Int) : Int :=
  let l : Int := if leap then 1 else 0
  if w < 31 then 0
  else if w < 59 + l then 1
  else if w < 90 + l then 2
  else if w < 120 + l then 3
  else if w < 151 + l then 4
  else if w < 181 + l then 5
  else if w < 212 + l then 6
  else if w < 243 + l then 7
  else if w < 273 + l then 8
  else if w < 304 + l then 9
  else if w < 334 + l then 10
  else 11

/-- ES `MonthFromTime`, on day numbers (0 = January). -/
def monthFromDay (d : Int) : Int :=
  monthOfDayWithinYear (inLeapYear (yearFromDay d)) (dayWithinYear d)

/-- ES `DateFromTime`, on day numbers (day of the month, from 1). -/
def dateFromDay (d : Int) : Int :=
  dayWithinYear d - daysBeforeMonth (inLeapYear (yearFromDay d)) (monthFromDay d) + 1

/-- ES `MakeDay(year, month, date)`. -/
def makeDay (year month date : Int) : Int :=
  let ym := year + month / 12
  let mn := month % 12
  dayFromYear ym + daysBeforeMonth (inLeapYear ym) mn + date - 1

/-- ES `WeekDay(t)`, on day numbers (0 = Sunday). -/
def weekDay (d : Int) : Int := (d + 4) % 7

/-- ES `LocalTime(t)` for a fixed offset of `off` minutes east of UTC. -/
def localTime (off t : Int) : Int := t + off * msPerMinute

/-- ES `UTC(t)` for a fixed offset of `off` minutes east of UTC. -/
def utcTime (off t : Int) : Int := t - off * msPerMinute

/-- The year the `Date` constructor uses for its first argument: as in
ECMAScript, a year from 0 to 99 stands for 1900 + year. -/
def constructorYear (year : Int) : Int :=
  if 0 ≤ year ∧ year ≤ 99 then 1900 + year else year

/-- The constructor `new Date(year, month, date)`: local midnight of the given
day. -/
def newDate (off year month date : Int) : Int :=
  utcTime off (makeDay (constructorYear year) month date * msPerDay)

/-- `Date.prototype.getFullYear`. -/
def getFullYear (off t : Int) : Int := yearFromDay (day (localTime off t))

/-- `Date.prototype.getDate`. -/
def getDate (off t : Int) : Int := dateFromDay (day (localTime off t))

/-- `Date.prototype.getDay`. -/
def getDay (off t : Int) : Int := weekDay (day (localTime off t))

/-- `Date.prototype.setDate(dt)`: the new time value. -/
def setDate (off t dt : Int) : Int :=
  let l := localTime off t
  let d := day l
  utcTime off (makeDay (yearFromDay d) (monthFromDay d) dt * msPerDay + timeWithinDay l)

def digitChar (n : Nat) : Char :=
  match n % 10 with
  | 0 => '0' | 1 => '1' | 2 => '2' | 3 => '3' | 4 => '4'
  | 5 => '5' | 6 => '6' | 7 => '7' | 8 => '8' | _ => '9'

/-- The last `w` decimal digits of `n`, zero padded. -/
def padDigits : Nat → Nat → List Char
  | 0, _ => []
  | w + 1, n => padDigits w (n / 10) ++ [digitChar n]

/-- The year part of `toISOString`: four digits for 0..9999, otherwise a sign
and six digits. -/
def isoYear (y : Int) : List Char :=
  if 0 ≤ y ∧ y ≤ 9999 then padDigits 4 y.toNat
  else if 0 ≤ y then '+' :: padDigits 6 y.toNat
  else '-' :: padDigits 6 (-y).toNat

/-- The text `toISOString().split('T')[0]` of a time value: the UTC calendar
date. -/
def toISODate (t : Int) : String :=
  let d := day t
  String.mk (isoYear (yearFromDay d) ++ '-' :: padDigits 2 (monthFromDay d + 1).toNat
    ++ '-' :: padDigits 2 (dateFromDay d).toNat)

/-- The ISO date text of the calendar day with day number `d`. -/
def isoOfDay (d : Int) : String := toISODate (d * msPerDay)

/-- `Math.ceil(a / b)` for integers `a` and a positive integer `b`. -/
def ceilDiv (a b : Int) : Int := -((-a) / b)

/-! ## JavaScript objects, arrays and numbers -/

/-- The largest power of two up to which every integer is a double: 2^53. -/
def twoPow53 : Nat := 9007199254740992

/-- The position of the leading bit of `m` (the floor of its binary logarithm),
by halving; `fuel` bounds the steps. -/
def leadingBit : Nat → Nat → Nat
  | 0, _ => 0
  | fuel + 1, m => if m < 2 then 0 else leadingBit fuel (m / 2) + 1

/-- The double nearest to the integer `n`, ties to the even significand (IEEE
754 binary64, round to nearest even): the value a JavaScript number takes for
the exact result `n`.  Integers up to 2^53 in magnitude are doubles; above,
the doubles are the multiples of `2^s` with 53 significant bits. -/
def roundToDouble (n : Int) : Int :=
  let m := n.natAbs
  if m ≤ twoPow53 then n
  else
    let s := leadingBit m m - 52
    let q := m / 2 ^ s
    let r := m % 2 ^ s
    let half := 2 ^ (s - 1)
    let up : Bool := if r < half then false else if half < r then true else q % 2 == 1
    let v : Int := (((if up then q + 1 else q) * 2 ^ s : Nat) : Int)
    if n < 0 then -v else v

/-- The sum `a + b` of two JavaScript numbers that hold integers: the exact sum,
rounded to a double. -/
def jsAdd (a b : Int) : Int := roundToDouble (a + b)

/-- An object used as a dictionary, in insertion order. -/
abbrev Dict (κ ν : Type) := List (κ × ν)

/-- The assignment `o[k] = v`: overwrite the binding of `k`, or append one. -/
def setProp {κ ν : Type} [BEq κ] : Dict κ ν → κ → ν → Dict κ ν
  | [], k, v => [(k, v)]
  | (k', v') :: rest, k, v =>
    if k' == k then (k', v) :: rest else (k', v') :: setProp rest k v

/-- The property names of a dictionary, each once, in insertion order. -/
def ownKeys {κ ν : Type} [BEq κ] : Dict κ ν → List κ
  | [] => []
  | (k, _) :: rest => k :: (ownKeys rest).filter (fun k' => !(k' == k))

/-- Submission counts of one year, keyed by date text. -/
abbrev YearData := Dict String Int

/-- The dataset `allSubmissionData`: year buckets keyed by year. -/
abbrev Dataset := Dict Int YearData

/-- A property name that is an array index (an integer from 0 to 2^32 - 2);
`Object.keys` lists these first, in ascending order. -/
def isArrayIndex (k : Int) : Bool := decide (0 ≤ k ∧ k < 4294967295)

/-- The result of `Object.keys(allSubmissionData).map(Number)`: array-index keys
ascending, then the other keys in insertion order. -/
def objectKeysNumbers (data : Dataset) : List Int :=
  let ks := ownKeys data
  (ks.filter isArrayIndex).insertionSort (· ≤ ·) ++ ks.filter (fun k => !isArrayIndex k)

/-- ES string comparison `x < y`: lexicographic on code units. -/
def codeUnitsLt : List Char → List Char → Bool
  | [], [] => false
  | [], _ :: _ => true
  | _ :: _, [] => false
  | a :: as, b :: bs =>
    if a.toNat < b.toNat then true
    else if b.toNat < a.toNat then false
    else codeUnitsLt as bs

/-- ES `ToString` of an integer number, as code units. -/
def numberToString (n : Int) : List Char := (toString n).data

/-- The order `Array.prototype.sort()` uses without a comparator: `a` may stay
before `b` unless `ToString(b) < ToString(a)`. -/
def sortLe (a b : Int) : Prop := codeUnitsLt (numberToString b) (numberToString a) = false

instance : DecidableRel sortLe := fun a b =>
  inferInstanceAs (Decidable (codeUnitsLt (numberToString b) (numberToString a) = false))

/-- `Array.prototype.sort()` without a comparator, on numbers. -/
def jsSort (xs : List Int) : List Int := xs.insertionSort sortLe

/-- The array `years` that `updateHeatmap` and both click handlers compute:
`Object.keys(allSubmissionData).map(Number).sort()`. -/
def yearsOf (data : Dataset) : List Int := jsSort (objectKeysNumbers data)

/-- `Array.prototype.indexOf`: the first index of `x`, or -1. -/
def indexOf : List Int → Int → Int
  | [], _ => -1
  | y :: ys, x =>
    if y = x then 0
    else if indexOf ys x < 0 then -1
    else indexOf ys x + 1

/-- `Math.min(...xs)` of a non-empty array `x :: xs`. -/
def mathMin (x : Int) (xs : List Int) : Int := xs.foldl min x

/-- `Math.max(...xs)` of a non-empty array `x :: xs`. -/
def mathMax (x : Int) (xs : List Int) : Int := xs.foldl max x

/-- A value of `Math.random()`: a fraction in [0, 1). -/
structure Rand where
  num : Nat
  den : Nat
  lt : num < den

/-- The expression `Math.floor(Math.random() * 6)`. -/
def Rand.floor6 (r : Rand) : Int := ((r.num * 6 / r.den : Nat) : Int)

/-! ## The heatmap renderer `updateHeatmap` -/

/-- One `heatmap-square` element: its attributes, and whether the three hover
listeners (mouseenter, mousemove, mouseleave) were added.  `dataCount` is the
number whose decimal text is the `data-count` attribute. -/
structure Square where
  dataDate : Option String
  dataCount : Int
  dataCountDisplay : Option Int
  hover : Bool
  deriving DecidableEq

/-- The `disabled` flags of the two navigation buttons. -/
structure Buttons where
  prevDisabled : Bool
  nextDisabled : Bool
  deriving DecidableEq

/-- What `updateHeatmap` writes to the document: the day labels, the week
columns of the grid, the three texts and the two button states. -/
structure Rendered where
  dayLabels : List String
  weeks : List (List Square)
  heatmapTitle : String
  totalSubmissions : String
  currentYearText : String
  buttons : Buttons
  deriving DecidableEq

/-- The loop variables that survive an iteration: `currentDate` and
`totalSubmissions`. -/
structure Cursor where
  currentDate : Int
  totalSubmissions : Int
  deriving DecidableEq

/-- The body of the inner loop: build one square, then advance `currentDate`
by `setDate(getDate() + 1)`.  The statement `totalSubmissions += count` is an
addition of doubles. -/
def squareStep (off : Int) (yearData : YearData) (firstDay lastDay : Int) (c : Cursor) :
    Square × Cursor :=
  let next := setDate off c.currentDate (getDate off c.currentDate + 1)
  if firstDay ≤ c.currentDate ∧ c.currentDate ≤ lastDay then
    let dateStr := toISODate c.currentDate
    let count := (yearData.lookup dateStr).getD 0
    (⟨some dateStr, count, some count, true⟩, ⟨next, jsAdd c.totalSubmissions count⟩)
  else
    (⟨none, 0, none, false⟩, ⟨next, c.totalSubmissions⟩)

/-- The inner loop `for (dayOfWeek = 0; dayOfWeek < 7; dayOfWeek++)`, with the
number of iterations still to run. -/
def weekColumn (off : Int) (yearData : YearData) (firstDay lastDay : Int) :
    Nat → Cursor → List Square × Cursor
  | 0, c => ([], c)
  | n + 1, c =>
    let r := squareStep off yearData firstDay lastDay c
    let rest := weekColumn off yearData firstDay lastDay n r.2
    (r.1 :: rest.1, rest.2)

/-- The outer loop `for (week = 0; week < weeks; week++)`, with the number of
iterations still to run. -/
def weeksLoop (off : Int) (yearData : YearData) (firstDay lastDay : Int) :
    Nat → Cursor → List (List Square) × Cursor
  | 0, c => ([], c)
  | n + 1, c =>
    let col := weekColumn off yearData firstDay lastDay 7 c
    let rest := weeksLoop off yearData firstDay lastDay n col.2
    (col.1 :: rest.1, rest.2)

/-- The variable `startDayOfWeek` of `updateHeatmap`. -/
def startDayOfWeek (off year : Int) : Int := getDay off (newDate off year 0 1)

/-- The variable `daysInYear` of `updateHeatmap`. -/
def daysInYear (off year : Int) : Int :=
  ceilDiv (newDate off year 11 31 - newDate off year 0 1) msPerDay + 1

/-- The variable `weeks` of `updateHeatmap`. -/
def weeksCount (off year : Int) : Int :=
  ceilDiv (startDayOfWeek off year + daysInYear off year) 7

/-- The initial value of `currentDate`: `firstDay` moved back by
`setDate(getDate() - startDayOfWeek)`. -/
def gridStart (off year : Int) : Int :=
  let firstDay := newDate off year 0 1
  setDate off firstDay (getDate off firstDay - startDayOfWeek off year)

/-- The function `updateHeatmap(year)`.  `off` is the local offset in minutes,
`btn` the state of the two buttons before the call. -/
def updateHeatmap (off : Int) (allSubmissionData : Dataset) (btn : Buttons) (year : Int) :
    Rendered :=
  let yearData := (allSubmissionData.lookup year).getD []
  let firstDay := newDate off year 0 1
  let lastDay := newDate off year 11 31
  let weeks := weeksCount off year
  let grid := weeksLoop off yearData firstDay lastDay weeks.toNat ⟨gridStart off year, 0⟩
  let totalSubmissions := grid.2.totalSubmissions
  let years := yearsOf allSubmissionData
  { dayLabels := ["Sun", "Mon", "Tue", "Wed", "Thu", "Fri", "Sat"]
    weeks := grid.1
    heatmapTitle := toString totalSubmissions ++ " submissions in " ++ toString year
    totalSubmissions := toString totalSubmissions ++ " total submissions"
    currentYearText := toString year
    buttons :=
      match years with
      | [] => btn
      | y :: ys => ⟨decide (year ≤ mathMin y ys), decide (year ≥ mathMax y ys)⟩ }

/-! ## Widget state, year navigation -/

/-- An observable step of the widget: an assignment to `allSubmissionData`, or
a call of `updateHeatmap`. -/
inductive Effect where
  | commit (data : Dataset)
  | render (year : Int)
  deriving DecidableEq

/-- The closure state of `initializeDMOJHeatmap` together with the document
parts it writes: the variables `currentYear` and `allSubmissionData`, the two
buttons, what the last `updateHeatmap` call wrote, and the steps so far. -/
structure Widget where
  currentYear : Int
  allSubmissionData : Dataset
  buttons : Buttons
  view : Option Rendered
  trace : List Effect
  deriving DecidableEq

/-- The assignment `allSubmissionData = data`. -/
def Widget.commit (w : Widget) (data : Dataset) : Widget :=
  { w with allSubmissionData := data, trace := w.trace ++ [Effect.commit data] }

/-- The call `updateHeatmap(year)` on the widget state. -/
def Widget.render (off : Int) (w : Widget) (year : Int) : Widget :=
  let r := updateHeatmap off w.allSubmissionData w.buttons year
  { w with buttons := r.buttons, view := some r, trace := w.trace ++ [Effect.render year] }

/-- The click handler of `prevYear`. -/
def prevYear (off : Int) (w : Widget) : Widget :=
  let years := yearsOf w.allSubmissionData
  let currentIndex := indexOf years w.currentYear
  if currentIndex > 0 then
    match years[(currentIndex - 1).toNat]? with
    | some y => Widget.render off { w with currentYear := y } y
    | none => w
  else w

/-- The click handler of `nextYear`. -/
def nextYear (off : Int) (w : Widget) : Widget :=
  let years := yearsOf w.allSubmissionData
  let currentIndex := indexOf years w.currentYear
  if currentIndex < (years.length : Int) - 1 then
    match years[(currentIndex + 1).toNat]? with
    | some y => Widget.render off { w with currentYear := y } y
    | none => w
  else w

/-- A user click on the previous-year button: a disabled button receives no
click event, so its handler does not run. -/
def clickPrev (off : Int) (w : Widget) : Widget :=
  if w.buttons.prevDisabled then w else prevYear off w

/-- A user click on the next-year button. -/
def clickNext (off : Int) (w : Widget) : Widget :=
  if w.buttons.nextDisabled then w else nextYear off w

/-! ## Data acquisition: `generateSampleData`, `parseDMOJCalendar`, the fetch chain -/

/-- The time value of `new Date(2020, 0, 1)`. -/
def sampleStart (off : Int) : Int := newDate off 2020 0 1

/-- The two statements `if (!data[year]) data[year] = {}; data[year][key] = count`
that `generateSampleData` and `parseDMOJCalendar` share. -/
def putCount (data : Dataset) (year : Int) (key : String) (count : Int) : Dataset :=
  let data1 := if (data.lookup year).isNone then setProp data year [] else data
  setProp data1 year (setProp ((data1.lookup year).getD []) key count)

/-- The body of the loop of `generateSampleData` for the date `d`, drawing the
random value `r`. -/
def sampleStep (off : Int) (data : Dataset) (d : Int) (r : Rand) : Dataset :=
  let year := getFullYear off d
  let dateStr := toISODate d
  putCount data year dateStr r.floor6

/-- The loop `for (d = ...; d <= endDate; d.setDate(d.getDate() + 1))` of
`generateSampleData`: `fuel` bounds the iterations, `i` counts the random draws
made so far. -/
def sampleLoop (off endDate : Int) (rand : Nat → Rand) : Nat → Int → Nat → Dataset → Dataset
  | 0, _, _, data => data
  | fuel + 1, d, i, data =>
    if d ≤ endDate then
      sampleLoop off endDate rand fuel (setDate off d (getDate off d + 1)) (i + 1)
        (sampleStep off data d (rand i))
    else data

/-- The number of iterations of the loop of `generateSampleData`: the days from
the start date to `now`. -/
def sampleDays (off now : Int) : Nat := ((now - sampleStart off) / msPerDay + 1).toNat

/-- Iterations after which the loop of `generateSampleData` has stopped. -/
def sampleFuel (off now : Int) : Nat := sampleDays off now + 1

/-- The function `generateSampleData()`.  `now` is the time value of
`new Date()`, `rand` the successive values of `Math.random()`. -/
def generateSampleData (off now : Int) (rand : Nat → Rand) : Dataset :=
  sampleLoop off now rand (sampleFuel off now) (sampleStart off) 0 []

/-- A cell matched by the selector of `parseDMOJCalendar`, with the five
attributes the function reads (`none`: attribute absent). -/
structure CalendarCell where
  dataDate : Option String
  dataDay : Option String
  dataCount : Option String
  dataValue : Option String
  fillOpacity : Option String
  deriving DecidableEq

/-- The operator `a || b` on attribute values: `null` and the empty string are
falsy. -/
def orElseAttr (a b : Option String) : Option String :=
  match a with
  | some s => if s = "" then b else some s
  | none => b

/-- The variable `date` of `parseDMOJCalendar`, when it is truthy. -/
def cellDate (c : CalendarCell) : Option String :=
  match orElseAttr c.dataDate c.dataDay with
  | some s => if s = "" then none else some s
  | none => none

/-- The body of `cells.forEach` in `parseDMOJCalendar`.  `parseInt` and
`fullYearOf` (the year `new Date(date).getFullYear()`) are the built-ins. -/
def parseCell (parseInt : String → Int) (fullYearOf : String → Int) (data : Dataset)
    (c : CalendarCell) : Dataset :=
  let count := parseInt
    ((orElseAttr (orElseAttr (orElseAttr c.dataCount c.dataValue) c.fillOpacity)
      (some "0")).getD "0")
  match cellDate c with
  | some date => putCount data (fullYearOf date) date count
  | none => data

/-- The object `data` that `parseDMOJCalendar` has built after `cells.forEach`. -/
def parsedCells (parseInt : String → Int) (fullYearOf : String → Int)
    (cells : List CalendarCell) : Dataset :=
  cells.foldl (parseCell parseInt fullYearOf) []

/-- The function `parseDMOJCalendar(calendarElement)`, on the cells its selector
matches. -/
def parseDMOJCalendar (parseInt : String → Int) (fullYearOf : String → Int)
    (off now : Int) (rand : Nat → Rand) (cells : List CalendarCell) : Dataset :=
  let data := parsedCells parseInt fullYearOf cells
  if (ownKeys data).length > 0 then data else generateSampleData off now rand

/-- How the data acquisition step ends: `fetch` rejects, `response.json()`
rejects, the JSON value has no properties to read (`data.contents` throws), or
the body is parsed to a document in which the calendar selector finds no
element (`none`) or an element with the given matching cells. -/
inductive Outcome where
  | fetchRejected
  | jsonRejected
  | contentsThrows
  | document (calendar : Option (List CalendarCell))
  deriving DecidableEq

/-- The state after the first, synchronous part of `initializeDMOJHeatmap`.
`now0` is the time value of the first `new Date()`, `btn` the buttons as the
page markup has them. -/
def initialWidget (off now0 : Int) (btn : Buttons) : Widget :=
  { currentYear := getFullYear off now0, allSubmissionData := [], buttons := btn,
    view := none, trace := [] }

/-- The callback of the second `.then`: the body was parsed to a document in
which the calendar selector found `calendar`. -/
def onData (parseInt : String → Int) (fullYearOf : String → Int)
    (off now : Int) (rand : Nat → Rand) (calendar : Option (List CalendarCell))
    (w : Widget) : Widget :=
  let w1 :=
    match calendar with
    | some cells => w.commit (parseDMOJCalendar parseInt fullYearOf off now rand cells)
    | none => w.commit (generateSampleData off now rand)
  Widget.render off w1 w1.currentYear

/-- The callback of `.catch`. -/
def onError (off now : Int) (rand : Nat → Rand) (w : Widget) : Widget :=
  let w1 := w.commit (generateSampleData off now rand)
  Widget.render off w1 w1.currentYear

/-- The promise chain `fetch(...).then(...).then(...).catch(...)` run to its
end on the widget state: a rejection or a throw reaches `.catch`. -/
def fetchSettled (parseInt : String → Int) (fullYearOf : String → Int)
    (off now : Int) (rand : Nat → Rand) (o : Outcome) (w : Widget) : Widget :=
  match o with
  | Outcome.document calendar => onData parseInt fullYearOf off now rand calendar w
  | _ => onError off now rand w

/-- The function `initializeDMOJHeatmap()` followed by the settlement of its
fetch. -/
def initializeDMOJHeatmap (parseInt : String → Int) (fullYearOf : String → Int)
    (off now0 now : Int) (rand : Nat → Rand) (btn : Buttons) (o : Outcome) : Widget :=
  fetchSettled parseInt fullYearOf off now rand o (initialWidget off now0 btn)

/-! ## The slide controller -/

/-- The two classes of a slide that the controller toggles. -/
structure SlideClasses where
  active : Bool
  fadeOut : Bool
  deriving DecidableEq

/-- An `IntersectionObserverEntry`: the index of its target among `slides`
(document order) and its `isIntersecting` flag. -/
structure Entry where
  target : Nat
  isIntersecting : Bool
  deriving DecidableEq

/-- Apply `f` to the element at index `i`, if there is one. -/
def modifyAt {α : Type} (f : α → α) : List α → Nat → List α
  | [], _ => []
  | x :: xs, 0 => f x :: xs
  | x :: xs, i + 1 => x :: modifyAt f xs i

/-- The loop `for (let i = 0; i < slideIndex; i++) slides[i].classList.add('fade-out')`,
run for `i = 0 .. k - 1`. -/
def fadeOutLoop (slides : List SlideClasses) : Nat → List SlideClasses
  | 0 => slides
  | k + 1 => modifyAt (fun c => { c with fadeOut := true }) (fadeOutLoop slides k) k

/-- The body of `entries.forEach` in the `slideObserver` callback. -/
def onEntry (slides : List SlideClasses) (e : Entry) : List SlideClasses :=
  if e.isIntersecting then
    let cleared := slides.map (fun _ => (⟨false, false⟩ : SlideClasses))
    let activated := modifyAt (fun c => { c with active := true }) cleared e.target
    let slideIndex : Int := if e.target < slides.length then (e.target : Int) else -1
    fadeOutLoop activated slideIndex.toNat
  else slides

/-- The `slideObserver` callback on one batch of entries. -/
def slideObserverCallback (slides : List SlideClasses) (entries : List Entry) :
    List SlideClasses :=
  entries.foldl onEntry slides

/-- Modelled from the spec: the page markup, which is not part of the script.
The spec has the script force the first slide active to avoid an empty state, so
the `n` slides of the markup carry neither `active` nor `fade-out`. -/
def markupSlides (n : Nat) : List SlideClasses :=
  List.replicate n ⟨false, false⟩

/-- The slides after the initialisation `if (slides.length > 0)
slides[0].classList.add('active')`. -/
def initSlides (n : Nat) : List SlideClasses :=
  if n > 0 then modifyAt (fun c => { c with active := true }) (markupSlides n) 0
  else markupSlides n

/-- The slides after a sequence of callback batches. -/
def runBatches (slides : List SlideClasses) (batches : List (List Entry)) :
    List SlideClasses :=
  batches.foldl slideObserverCallback slides

/-! ## Notions used to state the properties -/

/-- The sum of the `data-count` values of the squares that carry a date. -/
def datedCountSum (squares : List Square) : Int :=
  ((squares.filter (fun sq => sq.dataDate.isSome)).map (fun sq => sq.dataCount)).sum

/-- The sum of the magnitudes of the `data-count` values of the squares that
carry a date. -/
def datedAbsSum (squares : List Square) : Nat :=
  ((squares.filter (fun sq => sq.dataDate.isSome)).map (fun sq => sq.dataCount.natAbs)).sum

/-- The effect of one square on `totalSubmissions`: a square with a date adds
its count (an addition of doubles), a square without one adds nothing. -/
def tally (total : Int) (sq : Square) : Int :=
  if sq.dataDate.isSome then jsAdd total sq.dataCount else total

/-- The square `updateHeatmap` builds while `currentDate` is `t`. -/
def squareOf (yearData : YearData) (firstDay lastDay t : Int) : Square :=
  if firstDay ≤ t ∧ t ≤ lastDay then
    ⟨some (toISODate t), (yearData.lookup (toISODate t)).getD 0,
      some ((yearData.lookup (toISODate t)).getD 0), true⟩
  else ⟨none, 0, none, false⟩

/-- The placeholder square of a day outside the year. -/
def placeholder : Square := ⟨none, 0, none, false⟩

/-- The value of `currentDate` when the square of row `i` in week column `w`
is built. -/
def cellTime (off year : Int) (w i : Nat) : Int :=
  gridStart off year + ((7 * w + i : Nat) : Int) * msPerDay

/-- The slide state in which slide `k` is active and exactly the slides before
it are faded out. -/
def slideShape (n k : Nat) : List SlideClasses :=
  (List.range n).map (fun i => ⟨decide (i = k), decide (i < k)⟩)

/-- The target of the last intersecting entry of a batch, if any. -/
def lastIntersecting (entries : List Entry) : Option Nat :=
  (entries.reverse.find? (fun e => e.isIntersecting)).map (fun e => e.target)

/-- Slide `k` of `s` is the one slide that carries `active`, and the slides that
carry `fade-out` are exactly those before it in document order. -/
def ActiveAt (s : List SlideClasses) (k : Nat) : Prop :=
  k < s.length ∧
    ∀ (i : Nat) (c : SlideClasses), s[i]? = some c →
      ((c.active = true ↔ i = k) ∧ (c.fadeOut = true ↔ i < k))

/-- The dataset that is to be committed for an outcome, in the words of the
spec: the parsed one when the fetch succeeded, a calendar element was found and
at least one of its cells has a date; the synthetic one in every other case. -/
def datasetBySpec (parseInt : String → Int) (fullYearOf : String → Int)
    (off now : Int) (rand : Nat → Rand) : Outcome → Dataset
  | Outcome.document (some cells) =>
    if cells.any (fun c => (cellDate c).isSome) then parsedCells parseInt fullYearOf cells
    else generateSampleData off now rand
  | _ => generateSampleData off now rand

/-- The dataset has a bucket for `year` with an entry keyed `key`. -/
def HasEntry (data : Dataset) (year : Int) (key : String) : Prop :=
  ∃ bucket, data.lookup year = some bucket ∧ (bucket.lookup key).isSome = true

/-! ## Concrete inputs -/

/-- A dataset with the years 999, 2026 and 10000 (empty buckets). -/
def yearsOfThreeLengths : Dataset := [(999, []), (2026, []), (10000, [])]

/-- A dataset with the years 999, 1000 and 2026 (empty buckets). -/
def yearsAroundThousand : Dataset := [(999, []), (1000, []), (2026, [])]

/-- A dataset with the years 999 and 10000 (empty buckets). -/
def yearsFarApart : Dataset := [(999, []), (10000, [])]

/-- A dataset with the years 2024, 2025 and 2026 (empty buckets). -/
def recentYears : Dataset := [(2024, []), (2025, []), (2026, [])]

/-- A dataset with three submissions on 2024-01-01. -/
def newYear2024 : Dataset := [(2024, [("2024-01-01", 3)])]

/-- A dataset with 2^53 submissions on 2024-01-01 and one on 2024-01-02. -/
def pastSafeInteger : Dataset :=
  [(2024, [("2024-01-01", 9007199254740992), ("2024-01-02", 1)])]

/-- The random value 1/2, for which `Math.floor(Math.random() * 6)` is 3. -/
def oneHalf : Rand := ⟨1, 2, by decide⟩

/-- The widget showing `year` of `data`: the state right after `updateHeatmap(year)`. -/
def showing (off : Int) (data : Dataset) (year : Int) : Widget :=
  Widget.render off ⟨year, data, ⟨false, false⟩, none, []⟩ year

/-! ## Date arithmetic: lemmas -/

/-- `yearFromDay` meets the ES definition of `YearFromTime`: the year starts on
or before the day and the next year starts after it. -/
theorem yearFromDay_spec (d : Int) :
    dayFromYear (yearFromDay d) ≤ d ∧ d < dayFromYear (yearFromDay d + 1) := by
  unfold yearFromDay
  simp only
  split_ifs with h1 h2
  · refine ⟨h1, ?_⟩
    unfold dayFromYear at *
    omega
  · exact ⟨h2, by omega⟩
  · refine ⟨?_, ?_⟩
    · unfold dayFromYear at *
      omega
    · have e : (1970 + d * 400 / 146097 - 1 + 1) = 1970 + d * 400 / 146097 := by omega
      rw [e]; omega

theorem daysInYearES_cases (y : Int) :
    (daysInYearES y = 366 ∧ (y % 4 = 0 ∧ (y % 100 ≠ 0 ∨ y % 400 = 0))) ∨
    (daysInYearES y = 365 ∧ ¬ (y % 4 = 0 ∧ (y % 100 ≠ 0 ∨ y % 400 = 0))) := by
  unfold daysInYearES inLeapYear
  by_cases h4 : y % 4 = 0
  · by_cases h100 : y % 100 = 0
    · by_cases h400 : y % 400 = 0
      · left; simp [h4, h100, h400]
      · right; simp [h4, h100, h400]
    · left; simp [h4, h100]
  · right; simp [h4]

theorem dayFromYear_succ (y : Int) : dayFromYear (y + 1) = dayFromYear y + daysInYearES y := by
  have h := daysInYearES_cases y
  unfold dayFromYear
  omega

theorem dayFromYear_mono {a b : Int} (h : a ≤ b) : dayFromYear a ≤ dayFromYear b := by
  unfold dayFromYear
  omega

/-- ES `YearFromTime` is the largest year that starts on or before the day. -/
theorem yearFromDay_largest (d y : Int) (h : dayFromYear y ≤ d) : y ≤ yearFromDay d := by
  by_contra hlt
  have h1 : yearFromDay d + 1 ≤ y := by omega
  have h2 := dayFromYear_mono h1
  have h3 := (yearFromDay_spec d).2
  omega

theorem yearFromDay_dayFromYear_add (y k : Int) (h0 : 0 ≤ k) (h1 : k < daysInYearES y) :
    yearFromDay (dayFromYear y + k) = y := by
  have hs := yearFromDay_spec (dayFromYear y + k)
  have hl := yearFromDay_largest (dayFromYear y + k) y (by omega)
  by_contra hne
  have h2 : y + 1 ≤ yearFromDay (dayFromYear y + k) := by omega
  have h3 := dayFromYear_mono h2
  rw [dayFromYear_succ] at h3
  omega

theorem monthOfDayWithinYear_range (leap : Bool) (w : Int) :
    0 ≤ monthOfDayWithinYear leap w ∧ monthOfDayWithinYear leap w ≤ 11 := by
  unfold monthOfDayWithinYear
  dsimp only
  generalize (if leap = true then (1 : Int) else 0) = l
  by_cases h0 : w < 31
  · rw [if_pos h0]; omega
  rw [if_neg h0]
  by_cases h1 : w < 59 + l
  · rw [if_pos h1]; omega
  rw [if_neg h1]
  by_cases h2 : w < 90 + l
  · rw [if_pos h2]; omega
  rw [if_neg h2]
  by_cases h3 : w < 120 + l
  · rw [if_pos h3]; omega
  rw [if_neg h3]
  by_cases h4 : w < 151 + l
  · rw [if_pos h4]; omega
  rw [if_neg h4]
  by_cases h5 : w < 181 + l
  · rw [if_pos h5]; omega
  rw [if_neg h5]
  by_cases h6 : w < 212 + l
  · rw [if_pos h6]; omega
  rw [if_neg h6]
  by_cases h7 : w < 243 + l
  · rw [if_pos h7]; omega
  rw [if_neg h7]
  by_cases h8 : w < 273 + l
  · rw [if_pos h8]; omega
  rw [if_neg h8]
  by_cases h9 : w < 304 + l
  · rw [if_pos h9]; omega
  rw [if_neg h9]
  by_cases h10 : w < 334 + l
  · rw [if_pos h10]; omega
  rw [if_neg h10]; omega

/-- Recomposing the year, month and date of a day, with the date moved by `k`,
gives the day moved by `k`. -/
theorem makeDay_decompose (d k : Int) :
    makeDay (yearFromDay d) (monthFromDay d) (dateFromDay d + k) = d + k := by
  have hm := monthOfDayWithinYear_range (inLeapYear (yearFromDay d)) (dayWithinYear d)
  unfold makeDay dateFromDay
  have h1 : monthFromDay d / 12 = 0 := by unfold monthFromDay; omega
  have h2 : monthFromDay d % 12 = monthFromDay d := by unfold monthFromDay; omega
  simp only [h1, h2, add_zero]
  unfold dayWithinYear
  omega

/-- The statement `d.setDate(d.getDate() + k)` moves the time value by `k`
days. -/
theorem setDate_getDate_add (off t k : Int) :
    setDate off t (getDate off t + k) = t + k * msPerDay := by
  unfold setDate getDate
  simp only [makeDay_decompose]
  unfold utcTime localTime day timeWithinDay msPerDay msPerMinute
  omega

theorem makeDay_jan1 (y : Int) : makeDay y 0 1 = dayFromYear y := by
  unfold makeDay daysBeforeMonth
  simp

theorem makeDay_dec31 (y : Int) : makeDay y 11 31 = dayFromYear y + daysInYearES y - 1 := by
  unfold makeDay daysBeforeMonth daysInYearES
  have h1 : (11 : Int) / 12 = 0 := by decide
  have h2 : (11 : Int) % 12 = 11 := by decide
  simp only [h1, h2, add_zero]
  cases inLeapYear y <;> simp <;> omega

theorem newDate_jan1 (off year : Int) :
    newDate off year 0 1 = dayFromYear (constructorYear year) * msPerDay - off * msPerMinute := by
  unfold newDate utcTime
  rw [makeDay_jan1]

theorem newDate_dec31 (off year : Int) :
    newDate off year 11 31 =
      (dayFromYear (constructorYear year) + daysInYearES (constructorYear year) - 1) * msPerDay
        - off * msPerMinute := by
  unfold newDate utcTime
  rw [makeDay_dec31]

theorem day_localTime_midnight (off d : Int) :
    day (localTime off (d * msPerDay - off * msPerMinute)) = d := by
  unfold day localTime msPerDay msPerMinute
  omega

theorem startDayOfWeek_eq (off year : Int) :
    startDayOfWeek off year = weekDay (dayFromYear (constructorYear year)) := by
  unfold startDayOfWeek getDay
  rw [newDate_jan1, day_localTime_midnight]

theorem daysInYear_eq (off year : Int) :
    daysInYear off year = daysInYearES (constructorYear year) := by
  unfold daysInYear
  rw [newDate_jan1, newDate_dec31]
  unfold ceilDiv msPerDay
  omega

theorem gridStart_eq (off year : Int) :
    gridStart off year = newDate off year 0 1 - startDayOfWeek off year * msPerDay := by
  unfold gridStart
  simp only
  have h := setDate_getDate_add off (newDate off year 0 1) (-(startDayOfWeek off year))
  have e : getDate off (newDate off year 0 1) - startDayOfWeek off year
      = getDate off (newDate off year 0 1) + -(startDayOfWeek off year) := by omega
  rw [e, h]
  ring

/-! ## The grid loops in closed form -/

theorem datedCountSum_nil : datedCountSum [] = 0 := rfl

theorem datedCountSum_cons (sq : Square) (rest : List Square) :
    datedCountSum (sq :: rest) =
      (if sq.dataDate.isSome then sq.dataCount else 0) + datedCountSum rest := by
  unfold datedCountSum
  by_cases h : sq.dataDate.isSome = true <;> simp [List.filter_cons, h]

theorem datedCountSum_append (a b : List Square) :
    datedCountSum (a ++ b) = datedCountSum a + datedCountSum b := by
  unfold datedCountSum
  simp [List.filter_append, List.sum_append]

theorem squareStep_eq (off : Int) (yearData : YearData) (firstDay lastDay : Int) (c : Cursor) :
    squareStep off yearData firstDay lastDay c =
      (squareOf yearData firstDay lastDay c.currentDate,
        ⟨c.currentDate + msPerDay,
          tally c.totalSubmissions (squareOf yearData firstDay lastDay c.currentDate)⟩) := by
  unfold squareStep squareOf tally
  have h := setDate_getDate_add off c.currentDate 1
  rw [one_mul] at h
  simp only [h]
  by_cases hc : firstDay ≤ c.currentDate ∧ c.currentDate ≤ lastDay
  · simp [hc]
  · simp [hc]

theorem weekColumn_eq (off : Int) (yearData : YearData) (firstDay lastDay : Int) (n : Nat) :
    ∀ c : Cursor, weekColumn off yearData firstDay lastDay n c =
      ((List.range n).map
          (fun (i : Nat) => squareOf yearData firstDay lastDay (c.currentDate + (i : Int) * msPerDay)),
        ⟨c.currentDate + (n : Int) * msPerDay,
          ((List.range n).map
            (fun (i : Nat) => squareOf yearData firstDay lastDay
              (c.currentDate + (i : Int) * msPerDay))).foldl tally c.totalSubmissions⟩) := by
  induction n with
  | zero => intro c; simp [weekColumn]
  | succ n ih =>
    intro c
    rw [weekColumn, squareStep_eq, ih]
    have e : ∀ i : Nat, c.currentDate + msPerDay + (i : Int) * msPerDay
        = c.currentDate + ((i + 1 : Nat) : Int) * msPerDay := by
      intro i; push_cast; ring
    simp only [List.range_succ_eq_map, List.map_cons, List.map_map, Nat.cast_zero, zero_mul,
      add_zero, List.foldl_cons, e, Function.comp_def, Nat.succ_eq_add_one]

theorem weeksLoop_eq (off : Int) (yearData : YearData) (firstDay lastDay : Int) (n : Nat) :
    ∀ c : Cursor, weeksLoop off yearData firstDay lastDay n c =
      ((List.range n).map (fun (w : Nat) => (List.range 7).map
          (fun (i : Nat) => squareOf yearData firstDay lastDay
            (c.currentDate + ((7 * w + i : Nat) : Int) * msPerDay))),
        ⟨c.currentDate + ((7 * n : Nat) : Int) * msPerDay,
          (((List.range n).map (fun (w : Nat) =>
            (List.range 7).map (fun (i : Nat) => squareOf yearData firstDay lastDay
              (c.currentDate + ((7 * w + i : Nat) : Int) * msPerDay)))).flatten).foldl
            tally c.totalSubmissions⟩) := by
  induction n with
  | zero => intro c; simp [weeksLoop]
  | succ n ih =>
    intro c
    rw [weeksLoop, weekColumn_eq, ih]
    have e : ∀ w i : Nat, c.currentDate + ((7 : Nat) : Int) * msPerDay
          + ((7 * w + i : Nat) : Int) * msPerDay
        = c.currentDate + ((7 * (w + 1) + i : Nat) : Int) * msPerDay := by
      intro w i; push_cast; ring
    have e0 : ∀ i : Nat, c.currentDate + (i : Int) * msPerDay
        = c.currentDate + ((7 * 0 + i : Nat) : Int) * msPerDay := by
      intro i; simp
    simp only [e]
    rw [List.range_succ_eq_map (n := n)]
    simp only [List.map_cons, List.map_map, List.flatten_cons, List.foldl_append,
      Function.comp_def, Nat.succ_eq_add_one]
    simp only [← e0]
    refine Prod.ext rfl ?_
    simp only [Cursor.mk.injEq, and_true]
    push_cast; ring

/-- The grid `updateHeatmap` builds, in closed form. -/
theorem updateHeatmap_weeks (off : Int) (data : Dataset) (btn : Buttons) (year : Int) :
    (updateHeatmap off data btn year).weeks =
      (List.range (weeksCount off year).toNat).map (fun (w : Nat) => (List.range 7).map
        (fun (i : Nat) => squareOf ((data.lookup year).getD []) (newDate off year 0 1)
          (newDate off year 11 31) (cellTime off year w i))) := by
  unfold updateHeatmap cellTime
  simp only [weeksLoop_eq]

/-- The number `totalSubmissions` after the loops: the counts of the dated
squares, added one by one as doubles in rendering order. -/
theorem updateHeatmap_total (off : Int) (data : Dataset) (btn : Buttons) (year : Int) :
    (weeksLoop off ((data.lookup year).getD []) (newDate off year 0 1) (newDate off year 11 31)
        (weeksCount off year).toNat ⟨gridStart off year, 0⟩).2.totalSubmissions =
      (updateHeatmap off data btn year).weeks.flatten.foldl tally 0 := by
  rw [updateHeatmap_weeks, weeksLoop_eq]
  simp [cellTime]

/-- The square of row `i` in week column `w` of the rendered grid. -/
theorem updateHeatmap_square (off : Int) (data : Dataset) (btn : Buttons) (year : Int)
    (w i : Nat) (hw : w < (weeksCount off year).toNat) (hi : i < 7) :
    ((updateHeatmap off data btn year).weeks[w]?.bind (fun col => col[i]?)) =
      some (squareOf ((data.lookup year).getD []) (newDate off year 0 1)
        (newDate off year 11 31) (cellTime off year w i)) := by
  rw [updateHeatmap_weeks]
  simp [List.getElem?_map, List.getElem?_range hw, List.getElem?_range hi]

/-! ## The grid of a year: shape, dated squares, date texts -/

theorem weekDay_range (d : Int) : 0 ≤ weekDay d ∧ weekDay d < 7 := by
  unfold weekDay; omega

theorem daysInYearES_values (y : Int) : daysInYearES y = 365 ∨ daysInYearES y = 366 := by
  rcases daysInYearES_cases y with h | h
  · exact Or.inr h.1
  · exact Or.inl h.1

theorem constructorYear_of_not_two_digit (year : Int) (hy : ¬ (0 ≤ year ∧ year ≤ 99)) :
    constructorYear year = year := by
  unfold constructorYear
  rw [if_neg hy]

theorem weeksCount_eq (off year : Int) :
    weeksCount off year =
      ceilDiv (weekDay (dayFromYear (constructorYear year))
        + daysInYearES (constructorYear year)) 7 := by
  unfold weeksCount
  rw [startDayOfWeek_eq, daysInYear_eq]

theorem cellTime_eq (off year : Int) (w i : Nat) :
    cellTime off year w i =
      (dayFromYear (constructorYear year) - weekDay (dayFromYear (constructorYear year))
        + ((7 * w + i : Nat) : Int)) * msPerDay - off * msPerMinute := by
  unfold cellTime
  rw [gridStart_eq, newDate_jan1, startDayOfWeek_eq]
  ring

/-- The local day a square stands for. -/
theorem cellDay_eq (off year : Int) (w i : Nat) :
    day (localTime off (cellTime off year w i)) =
      dayFromYear (constructorYear year) - weekDay (dayFromYear (constructorYear year))
        + ((7 * w + i : Nat) : Int) := by
  rw [cellTime_eq, day_localTime_midnight]

/-- The test `currentDate >= firstDay && currentDate <= lastDay` holds exactly
when the local day of the square lies in the year the constructor built. -/
theorem cellTime_inYear_iff (off year : Int) (w i : Nat) :
    (newDate off year 0 1 ≤ cellTime off year w i
        ∧ cellTime off year w i ≤ newDate off year 11 31)
      ↔ (dayFromYear (constructorYear year) ≤ day (localTime off (cellTime off year w i)) ∧
          day (localTime off (cellTime off year w i)) < dayFromYear (constructorYear year + 1)) := by
  rw [cellDay_eq, cellTime_eq, newDate_jan1, newDate_dec31, dayFromYear_succ]
  unfold msPerDay
  constructor <;> intro h <;> constructor <;> omega

theorem weeksCount_toNat (off year : Int) :
    (((weeksCount off year).toNat : Nat) : Int) = weeksCount off year := by
  have h1 := weekDay_range (dayFromYear (constructorYear year))
  have h2 := daysInYearES_values (constructorYear year)
  have h3 : 0 ≤ weeksCount off year := by
    rw [weeksCount_eq]; unfold ceilDiv; omega
  omega

/-- The shape of the grid for the year the `Date` constructor builds: the
number of week columns, seven squares per column, and a first square that
stands for the Sunday on or before January 1. -/
theorem updateHeatmap_shape_constructorYear (off : Int) (data : Dataset) (btn : Buttons)
    (year : Int) :
    (((updateHeatmap off data btn year).weeks.length : Nat) : Int) =
        ceilDiv (weekDay (dayFromYear (constructorYear year))
          + daysInYearES (constructorYear year)) 7 ∧
    (∀ col ∈ (updateHeatmap off data btn year).weeks, col.length = 7) ∧
    getDay off (cellTime off year 0 0) = 0 ∧
    day (localTime off (cellTime off year 0 0)) ≤ dayFromYear (constructorYear year) ∧
    dayFromYear (constructorYear year) < day (localTime off (cellTime off year 0 0)) + 7 := by
  have hr := weekDay_range (dayFromYear (constructorYear year))
  refine ⟨?_, ?_, ?_, ?_, ?_⟩
  · rw [updateHeatmap_weeks, List.length_map, List.length_range, weeksCount_toNat,
      weeksCount_eq]
  · intro col hcol
    rw [updateHeatmap_weeks] at hcol
    simp only [List.mem_map, List.mem_range] at hcol
    obtain ⟨w, _, rfl⟩ := hcol
    simp
  · unfold getDay
    rw [cellDay_eq]
    unfold weekDay at *
    simp only [Nat.mul_zero, Nat.add_zero, Nat.cast_zero, add_zero]
    omega
  · rw [cellDay_eq]; simp only [Nat.mul_zero, Nat.add_zero, Nat.cast_zero, add_zero]; omega
  · rw [cellDay_eq]; simp only [Nat.mul_zero, Nat.add_zero, Nat.cast_zero, add_zero]; omega

/-- Within the model (a fixed offset, no limit on `Date` time values): for
every year outside 0..99 the number of week columns is
`ceil((startDayOfWeek + daysInYear) / 7)` with the weekday of January 1 of the
year and its 365 or 366 days, every column has seven squares, and the first
square stands for the Sunday on or before January 1. -/
theorem updateHeatmap_grid_shape (off : Int) (data : Dataset) (btn : Buttons) (year : Int)
    (hy : ¬ (0 ≤ year ∧ year ≤ 99)) :
    startDayOfWeek off year = weekDay (dayFromYear year) ∧
    daysInYear off year = daysInYearES year ∧
    (daysInYearES year = 365 ∨ daysInYearES year = 366) ∧
    (((updateHeatmap off data btn year).weeks.length : Nat) : Int) =
        ceilDiv (weekDay (dayFromYear year) + daysInYearES year) 7 ∧
    (∀ col ∈ (updateHeatmap off data btn year).weeks, col.length = 7) ∧
    getDay off (cellTime off year 0 0) = 0 ∧
    day (localTime off (cellTime off year 0 0)) ≤ dayFromYear year ∧
    dayFromYear year < day (localTime off (cellTime off year 0 0)) + 7 := by
  have h := updateHeatmap_shape_constructorYear off data btn year
  have e1 := startDayOfWeek_eq off year
  have e2 := daysInYear_eq off year
  rw [constructorYear_of_not_two_digit year hy] at h e1 e2
  exact ⟨e1, e2, daysInYearES_values year, h⟩

theorem updateHeatmap_grid_shape_witness :
    startDayOfWeek 0 2024 = weekDay (dayFromYear 2024) ∧
    daysInYear 0 2024 = daysInYearES 2024 ∧
    (daysInYearES 2024 = 365 ∨ daysInYearES 2024 = 366) ∧
    (((updateHeatmap 0 newYear2024 ⟨false, false⟩ 2024).weeks.length : Nat) : Int) =
        ceilDiv (weekDay (dayFromYear 2024) + daysInYearES 2024) 7 ∧
    (∀ col ∈ (updateHeatmap 0 newYear2024 ⟨false, false⟩ 2024).weeks, col.length = 7) ∧
    getDay 0 (cellTime 0 2024 0 0) = 0 ∧
    day (localTime 0 (cellTime 0 2024 0 0)) ≤ dayFromYear 2024 ∧
    dayFromYear 2024 < day (localTime 0 (cellTime 0 2024 0 0)) + 7 :=
  updateHeatmap_grid_shape 0 newYear2024 ⟨false, false⟩ 2024 (by decide)

/-- The squares of the grid for the year the `Date` constructor builds: a square
carries a date and the hover handlers exactly when its local day lies in that
year; every other square is the placeholder (no date, no handlers, count 0) and
sits in the first or the last week column. -/
theorem updateHeatmap_squares_constructorYear (off : Int) (data : Dataset) (btn : Buttons)
    (year : Int) (w i : Nat) (hw : w < (updateHeatmap off data btn year).weeks.length)
    (hi : i < 7) :
    ∃ sq, ((updateHeatmap off data btn year).weeks[w]?.bind (fun col => col[i]?)) = some sq ∧
      (sq.dataDate.isSome = true ↔
        (dayFromYear (constructorYear year) ≤ day (localTime off (cellTime off year w i)) ∧
          day (localTime off (cellTime off year w i)) < dayFromYear (constructorYear year + 1))) ∧
      (sq.hover = sq.dataDate.isSome) ∧
      (sq.dataDate = none →
        sq = placeholder ∧ (w = 0 ∨ w + 1 = (updateHeatmap off data btn year).weeks.length)) := by
  have hlen := (updateHeatmap_shape_constructorYear off data btn year).1
  have hw2 : w < (weeksCount off year).toNat := by
    rw [updateHeatmap_weeks, List.length_map, List.length_range] at hw
    exact hw
  refine ⟨_, updateHeatmap_square off data btn year w i hw2 hi, ?_, ?_, ?_⟩
  · rw [← cellTime_inYear_iff]
    unfold squareOf
    split_ifs with hc
    · simp [hc]
    · simp [hc]
  · unfold squareOf
    split_ifs <;> rfl
  · intro hnone
    have hnot : ¬ (newDate off year 0 1 ≤ cellTime off year w i
        ∧ cellTime off year w i ≤ newDate off year 11 31) := by
      intro hc
      unfold squareOf at hnone
      rw [if_pos hc] at hnone
      cases hnone
    refine ⟨by unfold squareOf placeholder; rw [if_neg hnot], ?_⟩
    rw [cellTime_inYear_iff, cellDay_eq, dayFromYear_succ] at hnot
    have hr := weekDay_range (dayFromYear (constructorYear year))
    have hd := daysInYearES_values (constructorYear year)
    have hwl : ((w : Nat) : Int) < ((updateHeatmap off data btn year).weeks.length : Int) := by
      exact_mod_cast hw
    rw [hlen] at hwl
    have hgoal : (w : Int) = 0 ∨ (w : Int) + 1
        = ceilDiv (weekDay (dayFromYear (constructorYear year))
            + daysInYearES (constructorYear year)) 7 := by
      unfold ceilDiv at *
      push_cast at hnot
      omega
    rcases hgoal with h0 | h1
    · left; exact_mod_cast h0
    · right
      have : ((w + 1 : Nat) : Int) = ((updateHeatmap off data btn year).weeks.length : Int) := by
        rw [hlen]; push_cast; exact h1
      exact_mod_cast this

/-- Within the model (a fixed offset, no limit on `Date` time values): for
every year outside 0..99 a square carries a date and the
hover handlers exactly when the local day it stands for lies in
[January 1, December 31] of the year; every other square has no date, no
handlers and count 0 and sits in the first or the last week column. -/
theorem updateHeatmap_dated_iff (off : Int) (data : Dataset) (btn : Buttons) (year : Int)
    (hy : ¬ (0 ≤ year ∧ year ≤ 99)) (w i : Nat)
    (hw : w < (updateHeatmap off data btn year).weeks.length) (hi : i < 7) :
    ∃ sq, ((updateHeatmap off data btn year).weeks[w]?.bind (fun col => col[i]?)) = some sq ∧
      (sq.dataDate.isSome = true ↔
        (dayFromYear year ≤ day (localTime off (cellTime off year w i)) ∧
          day (localTime off (cellTime off year w i)) < dayFromYear (year + 1))) ∧
      (sq.hover = sq.dataDate.isSome) ∧
      (sq.dataDate = none →
        sq = placeholder ∧ (w = 0 ∨ w + 1 = (updateHeatmap off data btn year).weeks.length)) := by
  have h := updateHeatmap_squares_constructorYear off data btn year w i hw hi
  rw [constructorYear_of_not_two_digit year hy] at h
  exact h

theorem updateHeatmap_dated_iff_witness :
    ∃ sq, ((updateHeatmap 0 newYear2024 ⟨false, false⟩ 2024).weeks[0]?.bind
        (fun col => col[1]?)) = some sq ∧
      (sq.dataDate.isSome = true ↔
        (dayFromYear 2024 ≤ day (localTime 0 (cellTime 0 2024 0 1)) ∧
          day (localTime 0 (cellTime 0 2024 0 1)) < dayFromYear (2024 + 1))) ∧
      (sq.hover = sq.dataDate.isSome) ∧
      (sq.dataDate = none →
        sq = placeholder ∧
          (0 = 0 ∨ 0 + 1 = (updateHeatmap 0 newYear2024 ⟨false, false⟩ 2024).weeks.length)) :=
  updateHeatmap_dated_iff 0 newYear2024 ⟨false, false⟩ 2024 (by decide) 0 1 (by decide)
    (by decide)

theorem toISODate_eq_isoOfDay (t : Int) : toISODate t = isoOfDay (day t) := by
  have h : day (day t * msPerDay) = day t := by
    unfold day msPerDay; omega
  unfold isoOfDay toISODate
  simp only [h]

/-- The UTC day of a square: its local day shifted by the whole days that the
offset moves local midnight. -/
theorem day_cellTime (off year : Int) (w i : Nat) :
    day (cellTime off year w i) =
      day (localTime off (cellTime off year w i)) + (-(off * msPerMinute)) / msPerDay := by
  rw [cellDay_eq, cellTime_eq]
  unfold day msPerDay msPerMinute
  omega

/-- The square of day number `k` of the year the `Date` constructor builds
(`k = 0` for January 1): it sits at position `startDayOfWeek + k` of the grid, in
the row of its weekday, and carries the date text and the count of the UTC day
of its local midnight. -/
theorem updateHeatmap_day_square_constructorYear (off : Int) (data : Dataset) (btn : Buttons)
    (year : Int) (k : Nat) (hk : (k : Int) < daysInYearES (constructorYear year)) :
    ((updateHeatmap off data btn year).weeks[
        ((weekDay (dayFromYear (constructorYear year))).toNat + k) / 7]?.bind
      (fun col => col[((weekDay (dayFromYear (constructorYear year))).toNat + k) % 7]?)) =
      some ⟨some (isoOfDay (dayFromYear (constructorYear year) + k
              + (-(off * msPerMinute)) / msPerDay)),
        (((data.lookup year).getD []).lookup (isoOfDay (dayFromYear (constructorYear year) + k
              + (-(off * msPerMinute)) / msPerDay))).getD 0,
        some ((((data.lookup year).getD []).lookup
          (isoOfDay (dayFromYear (constructorYear year) + k
              + (-(off * msPerMinute)) / msPerDay))).getD 0),
        true⟩ ∧
    ((((weekDay (dayFromYear (constructorYear year))).toNat + k) % 7 : Nat) : Int)
      = weekDay (dayFromYear (constructorYear year) + k) ∧
    (k = 0 → ((weekDay (dayFromYear (constructorYear year))).toNat + k) / 7 = 0) ∧
    ((k : Int) + 1 = daysInYearES (constructorYear year) →
      ((weekDay (dayFromYear (constructorYear year))).toNat + k) / 7 + 1
        = (updateHeatmap off data btn year).weeks.length) := by
  have hr := weekDay_range (dayFromYear (constructorYear year))
  have hd := daysInYearES_values (constructorYear year)
  have hlen := (updateHeatmap_shape_constructorYear off data btn year).1
  generalize hj : (weekDay (dayFromYear (constructorYear year))).toNat + k = j at *
  have hjz : (j : Int) = weekDay (dayFromYear (constructorYear year)) + k := by
    rw [← hj]; push_cast; omega
  have hpos : (((7 * (j / 7) + j % 7 : Nat)) : Int) = (j : Int) := by
    have : 7 * (j / 7) + j % 7 = j := Nat.div_add_mod j 7
    rw [this]
  have hwlt : j / 7 < (weeksCount off year).toNat := by
    have h1 : (((weeksCount off year).toNat : Nat) : Int)
        = ceilDiv (weekDay (dayFromYear (constructorYear year))
            + daysInYearES (constructorYear year)) 7 := by
      rw [weeksCount_toNat, weeksCount_eq]
    have h2 : ((j / 7 : Nat) : Int) < (((weeksCount off year).toNat : Nat) : Int) := by
      rw [h1]; unfold ceilDiv; push_cast; omega
    exact_mod_cast h2
  have hday : day (localTime off (cellTime off year (j / 7) (j % 7)))
      = dayFromYear (constructorYear year) + k := by
    rw [cellDay_eq, hpos, hjz]; ring
  have hin : newDate off year 0 1 ≤ cellTime off year (j / 7) (j % 7)
      ∧ cellTime off year (j / 7) (j % 7) ≤ newDate off year 11 31 := by
    rw [cellTime_inYear_iff, hday, dayFromYear_succ]
    omega
  refine ⟨?_, ?_, ?_, ?_⟩
  · rw [updateHeatmap_square off data btn year (j / 7) (j % 7) hwlt (Nat.mod_lt _ (by decide))]
    unfold squareOf
    rw [if_pos hin, toISODate_eq_isoOfDay, day_cellTime, hday]
  · unfold weekDay at *
    omega
  · intro h0
    omega
  · intro hlast
    have h3 : (((j / 7 + 1 : Nat)) : Int)
        = (((updateHeatmap off data btn year).weeks.length : Nat) : Int) := by
      rw [hlen]; unfold ceilDiv; push_cast; omega
    exact_mod_cast h3

/-- Within the model (an offset that is the same all year): for every year
outside 0..99 and every offset at or west of UTC (by less than a day), the
calendar day number `k` of the year has its square in
the row of its weekday, January 1 in the first column and December 31 in the
last, with the date text of the day itself and the dataset count of that text
(0 when absent). -/
theorem updateHeatmap_day_square_west (off : Int) (data : Dataset) (btn : Buttons)
    (year : Int) (hy : ¬ (0 ≤ year ∧ year ≤ 99)) (hoff : -1440 < off ∧ off ≤ 0)
    (k : Nat) (hk : (k : Int) < daysInYearES year) :
    ((updateHeatmap off data btn year).weeks[((weekDay (dayFromYear year)).toNat + k) / 7]?.bind
      (fun col => col[((weekDay (dayFromYear year)).toNat + k) % 7]?)) =
      some ⟨some (isoOfDay (dayFromYear year + k)),
        (((data.lookup year).getD []).lookup (isoOfDay (dayFromYear year + k))).getD 0,
        some ((((data.lookup year).getD []).lookup (isoOfDay (dayFromYear year + k))).getD 0),
        true⟩ ∧
    ((((weekDay (dayFromYear year)).toNat + k) % 7 : Nat) : Int)
      = weekDay (dayFromYear year + k) ∧
    (k = 0 → ((weekDay (dayFromYear year)).toNat + k) / 7 = 0) ∧
    ((k : Int) + 1 = daysInYearES year →
      ((weekDay (dayFromYear year)).toNat + k) / 7 + 1
        = (updateHeatmap off data btn year).weeks.length) := by
  have e := constructorYear_of_not_two_digit year hy
  have h := updateHeatmap_day_square_constructorYear off data btn year k (by rw [e]; exact hk)
  have hs : (-(off * msPerMinute)) / msPerDay = 0 := by
    unfold msPerMinute msPerDay; omega
  rw [e, hs] at h
  simpa using h

theorem updateHeatmap_day_square_west_witness :
    ((updateHeatmap (-300) newYear2024 ⟨false, false⟩ 2024).weeks[
        ((weekDay (dayFromYear 2024)).toNat + 0) / 7]?.bind
      (fun col => col[((weekDay (dayFromYear 2024)).toNat + 0) % 7]?)) =
      some ⟨some (isoOfDay (dayFromYear 2024 + (0 : Nat))),
        (((newYear2024.lookup 2024).getD []).lookup
          (isoOfDay (dayFromYear 2024 + (0 : Nat)))).getD 0,
        some ((((newYear2024.lookup 2024).getD []).lookup
          (isoOfDay (dayFromYear 2024 + (0 : Nat)))).getD 0),
        true⟩ ∧
    ((((weekDay (dayFromYear 2024)).toNat + 0) % 7 : Nat) : Int)
      = weekDay (dayFromYear 2024 + (0 : Nat)) ∧
    (0 = 0 → ((weekDay (dayFromYear 2024)).toNat + 0) / 7 = 0) ∧
    (((0 : Nat) : Int) + 1 = daysInYearES 2024 →
      ((weekDay (dayFromYear 2024)).toNat + 0) / 7 + 1
        = (updateHeatmap (-300) newYear2024 ⟨false, false⟩ 2024).weeks.length) :=
  updateHeatmap_day_square_west (-300) newYear2024 ⟨false, false⟩ 2024 (by decide)
    (by decide) 0 (by decide)

/-- East of UTC (by at most a day) the square of every calendar day carries
the date text, and the dataset count, of the day before. -/
theorem updateHeatmap_day_square_east (off : Int) (data : Dataset) (btn : Buttons)
    (year : Int) (hy : ¬ (0 ≤ year ∧ year ≤ 99)) (hoff : 0 < off ∧ off ≤ 1440)
    (k : Nat) (hk : (k : Int) < daysInYearES year) :
    ((updateHeatmap off data btn year).weeks[((weekDay (dayFromYear year)).toNat + k) / 7]?.bind
      (fun col => col[((weekDay (dayFromYear year)).toNat + k) % 7]?)) =
      some ⟨some (isoOfDay (dayFromYear year + k - 1)),
        (((data.lookup year).getD []).lookup (isoOfDay (dayFromYear year + k - 1))).getD 0,
        some ((((data.lookup year).getD []).lookup (isoOfDay (dayFromYear year + k - 1))).getD 0),
        true⟩ := by
  have e := constructorYear_of_not_two_digit year hy
  have h := (updateHeatmap_day_square_constructorYear off data btn year k
    (by rw [e]; exact hk)).1
  have hs : (-(off * msPerMinute)) / msPerDay = -1 := by
    unfold msPerMinute msPerDay; omega
  rw [e, hs] at h
  exact h

theorem updateHeatmap_day_square_east_witness :
    ((updateHeatmap 60 newYear2024 ⟨false, false⟩ 2024).weeks[
        ((weekDay (dayFromYear 2024)).toNat + 0) / 7]?.bind
      (fun col => col[((weekDay (dayFromYear 2024)).toNat + 0) % 7]?)) =
      some ⟨some (isoOfDay (dayFromYear 2024 + (0 : Nat) - 1)),
        (((newYear2024.lookup 2024).getD []).lookup
          (isoOfDay (dayFromYear 2024 + (0 : Nat) - 1))).getD 0,
        some ((((newYear2024.lookup 2024).getD []).lookup
          (isoOfDay (dayFromYear 2024 + (0 : Nat) - 1))).getD 0),
        true⟩ :=
  updateHeatmap_day_square_east 60 newYear2024 ⟨false, false⟩ 2024 (by decide) (by decide) 0
    (by decide)

/-! ## C2, C4: years 0 to 99 -/

/-- C2, evaluated at the year 16: `new Date(16, 0, 1)` is January 1 of 1916, a
Saturday of a leap year, so 54 week columns are rendered; January 1 of the year
16 is a Friday, for which the count of the claim is 53. -/
theorem updateHeatmap_year16_columns :
    (updateHeatmap 0 [] ⟨false, false⟩ 16).weeks.length = 54 ∧
    startDayOfWeek 0 16 = 6 ∧ daysInYear 0 16 = 366 ∧
    weekDay (dayFromYear 16) = 5 ∧ daysInYearES 16 = 366 ∧
    ceilDiv (weekDay (dayFromYear 16) + daysInYearES 16) 7 = 53 := by
  decide

/-- C4, evaluated at the year 16: the square of row 6 in the first column
carries the date 1916-01-01 and the hover handlers, and the day it stands for
is January 1 of 1916, which lies outside the year 16. -/
theorem updateHeatmap_year16_dated_outside :
    ((updateHeatmap 0 [] ⟨false, false⟩ 16).weeks[0]?.bind (fun col => col[6]?))
      = some ⟨some "1916-01-01", 0, some 0, true⟩ ∧
    day (localTime 0 (cellTime 0 16 0 6)) = dayFromYear 1916 ∧
    ¬ (dayFromYear 16 ≤ day (localTime 0 (cellTime 0 16 0 6)) ∧
        day (localTime 0 (cellTime 0 16 0 6)) < dayFromYear 17) := by
  decide

/-! ## The synthetic dataset: what holds for every offset -/

theorem mem_setProp {κ ν : Type} [BEq κ] [LawfulBEq κ] (o : Dict κ ν) (k : κ) (v : ν)
    (p : κ × ν) (h : p ∈ setProp o k v) : p = (k, v) ∨ p ∈ o := by
  induction o with
  | nil =>
    simp only [setProp, List.mem_singleton] at h
    exact Or.inl h
  | cons q rest ih =>
    obtain ⟨k2, v2⟩ := q
    unfold setProp at h
    by_cases hk : (k2 == k) = true
    · rw [if_pos hk] at h
      have e : k2 = k := eq_of_beq hk
      rcases List.mem_cons.1 h with h1 | h1
      · left; rw [h1, e]
      · right; exact List.mem_cons_of_mem _ h1
    · rw [if_neg hk] at h
      rcases List.mem_cons.1 h with h1 | h1
      · right; rw [h1]; exact List.mem_cons_self _ _
      · rcases ih h1 with h2 | h2
        · exact Or.inl h2
        · exact Or.inr (List.mem_cons_of_mem _ h2)

theorem lookup_mem {κ ν : Type} [BEq κ] [LawfulBEq κ] (o : Dict κ ν) (k : κ) (v : ν)
    (h : o.lookup k = some v) : (k, v) ∈ o := by
  induction o with
  | nil => simp at h
  | cons q rest ih =>
    obtain ⟨k2, v2⟩ := q
    rw [List.lookup_cons] at h
    by_cases hk : (k == k2) = true
    · rw [hk] at h
      simp only [Option.some.injEq] at h
      have e : k = k2 := eq_of_beq hk
      rw [e, h]; exact List.mem_cons_self _ _
    · have hk2 : (k == k2) = false := by simpa using hk
      rw [hk2] at h
      exact List.mem_cons_of_mem _ (ih h)

theorem lookup_setProp_self {κ ν : Type} [BEq κ] [LawfulBEq κ] (o : Dict κ ν) (k : κ) (v : ν) :
    (setProp o k v).lookup k = some v := by
  induction o with
  | nil => simp [setProp, List.lookup_cons]
  | cons q rest ih =>
    obtain ⟨k2, v2⟩ := q
    unfold setProp
    by_cases hk : (k2 == k) = true
    · have e : k2 = k := eq_of_beq hk
      rw [if_pos hk, List.lookup_cons, e]
      simp
    · rw [if_neg hk, List.lookup_cons]
      have hk2 : (k == k2) = false := by
        cases h : (k == k2) with
        | false => rfl
        | true => exact absurd (by rw [eq_of_beq h]; simp) hk
      rw [hk2]
      exact ih

theorem lookup_setProp_ne {κ ν : Type} [BEq κ] [LawfulBEq κ] (o : Dict κ ν) (k k2 : κ) (v : ν)
    (hne : k2 ≠ k) : (setProp o k v).lookup k2 = o.lookup k2 := by
  induction o with
  | nil =>
    have h : (k2 == k) = false := by simpa using hne
    simp [setProp, List.lookup_cons, h]
  | cons q rest ih =>
    obtain ⟨k3, v3⟩ := q
    unfold setProp
    by_cases hk : (k3 == k) = true
    · have e : k3 = k := eq_of_beq hk
      have h : (k2 == k3) = false := by rw [e]; simpa using hne
      rw [if_pos hk, List.lookup_cons, List.lookup_cons, h]
    · rw [if_neg hk, List.lookup_cons, List.lookup_cons, ih]

/-- After `putCount` the dataset has the bucket and the entry just written. -/
theorem hasEntry_putCount_self (data : Dataset) (year : Int) (key : String) (count : Int) :
    HasEntry (putCount data year key count) year key := by
  unfold HasEntry putCount
  simp only
  rw [lookup_setProp_self]
  exact ⟨_, rfl, by rw [lookup_setProp_self]; rfl⟩

theorem hasEntry_putCount_of_hasEntry (data : Dataset) (year : Int) (key : String)
    (count : Int) (y : Int) (s : String) (h : HasEntry data y s) :
    HasEntry (putCount data year key count) y s := by
  obtain ⟨b, hb, hs⟩ := h
  unfold HasEntry putCount
  simp only
  by_cases hy : y = year
  · subst hy
    have hsome : ¬ (List.lookup y data).isNone = true := by rw [hb]; simp
    rw [if_neg hsome, lookup_setProp_self, hb]
    refine ⟨_, rfl, ?_⟩
    simp only [Option.getD_some]
    by_cases hk : s = key
    · subst hk; rw [lookup_setProp_self]; rfl
    · rw [lookup_setProp_ne _ _ _ _ hk]; exact hs
  · rw [lookup_setProp_ne _ _ _ _ hy]
    by_cases hn : (List.lookup year data).isNone = true
    · rw [if_pos hn, lookup_setProp_ne _ _ _ _ hy]
      exact ⟨b, hb, hs⟩
    · rw [if_neg hn]
      exact ⟨b, hb, hs⟩

theorem mem_putCount (data : Dataset) (year : Int) (key : String) (count : Int)
    (y : Int) (b : YearData) (s : String) (c : Int)
    (hb : (y, b) ∈ putCount data year key count) (hs : (s, c) ∈ b) :
    (y = year ∧ s = key ∧ c = count) ∨ ∃ b2, (y, b2) ∈ data ∧ (s, c) ∈ b2 := by
  unfold putCount at hb
  simp only at hb
  have hdata1 : ∀ y2 b2, (y2, b2) ∈ (if (List.lookup year data).isNone = true
      then setProp data year [] else data) → b2 = [] ∨ (y2, b2) ∈ data := by
    intro y2 b2 h2
    split_ifs at h2
    · rcases mem_setProp _ _ _ _ h2 with h3 | h3
      · left; simp only [Prod.mk.injEq] at h3; exact h3.2
      · exact Or.inr h3
    · exact Or.inr h2
  rcases mem_setProp _ _ _ _ hb with h1 | h1
  · simp only [Prod.mk.injEq] at h1
    obtain ⟨hy, hbe⟩ := h1
    rw [hbe] at hs
    rcases mem_setProp _ _ _ _ hs with h2 | h2
    · simp only [Prod.mk.injEq] at h2
      exact Or.inl ⟨hy, h2.1, h2.2⟩
    · right
      cases hl : List.lookup year (if (List.lookup year data).isNone = true
          then setProp data year [] else data) with
      | none => rw [hl] at h2; simp at h2
      | some b3 =>
        rw [hl] at h2
        simp only [Option.getD_some] at h2
        have hm := lookup_mem _ _ _ hl
        rcases hdata1 _ _ hm with h3 | h3
        · rw [h3] at h2; simp at h2
        · exact ⟨b3, by rw [hy]; exact h3, h2⟩
  · rcases hdata1 _ _ h1 with h3 | h3
    · rw [h3] at hs; simp at hs
    · exact Or.inr ⟨b, h3, hs⟩

theorem foldl_putCount_hasEntry_preserved (Y : Nat → Int) (S : Nat → String) (C : Nat → Int)
    (ks : List Nat) : ∀ (data : Dataset) (y : Int) (s : String), HasEntry data y s →
      HasEntry (ks.foldl (fun acc k => putCount acc (Y k) (S k) (C k)) data) y s := by
  induction ks with
  | nil => intro data y s h; exact h
  | cons k rest ih =>
    intro data y s h
    rw [List.foldl_cons]
    exact ih _ y s (hasEntry_putCount_of_hasEntry data _ _ _ y s h)

theorem foldl_putCount_hasEntry (Y : Nat → Int) (S : Nat → String) (C : Nat → Int)
    (ks : List Nat) : ∀ (data : Dataset) (k : Nat), k ∈ ks →
      HasEntry (ks.foldl (fun acc k => putCount acc (Y k) (S k) (C k)) data) (Y k) (S k) := by
  induction ks with
  | nil => intro data k hk; cases hk
  | cons k0 rest ih =>
    intro data k hk
    rw [List.foldl_cons]
    rcases List.mem_cons.1 hk with h | h
    · rw [h]
      exact foldl_putCount_hasEntry_preserved Y S C rest _ _ _
        (hasEntry_putCount_self data _ _ _)
    · exact ih _ k h

theorem foldl_putCount_mem (Y : Nat → Int) (S : Nat → String) (C : Nat → Int)
    (ks : List Nat) : ∀ (data : Dataset) (y : Int) (b : YearData) (s : String) (c : Int),
      (y, b) ∈ ks.foldl (fun acc k => putCount acc (Y k) (S k) (C k)) data → (s, c) ∈ b →
      (∃ k ∈ ks, y = Y k ∧ s = S k ∧ c = C k) ∨ ∃ b2, (y, b2) ∈ data ∧ (s, c) ∈ b2 := by
  induction ks with
  | nil => intro data y b s c hb hs; exact Or.inr ⟨b, hb, hs⟩
  | cons k0 rest ih =>
    intro data y b s c hb hs
    rw [List.foldl_cons] at hb
    rcases ih _ y b s c hb hs with ⟨k, hk, h⟩ | ⟨b2, hb2, hs2⟩
    · exact Or.inl ⟨k, List.mem_cons_of_mem _ hk, h⟩
    · rcases mem_putCount data _ _ _ y b2 s c hb2 hs2 with h | h
      · exact Or.inl ⟨k0, List.mem_cons_self _ _, h⟩
      · exact Or.inr h

/-- The loop of `generateSampleData` stops by its own test before the fuel runs
out, after one step for each day from `d` to `endDate`. -/
theorem sampleLoop_eq (off endDate : Int) (rand : Nat → Rand) (fuel : Nat) :
    ∀ (d : Int) (i : Nat) (data : Dataset), ((endDate - d) / msPerDay + 1).toNat < fuel →
      sampleLoop off endDate rand fuel d i data =
        (List.range ((endDate - d) / msPerDay + 1).toNat).foldl
          (fun acc (k : Nat) => sampleStep off acc (d + (k : Int) * msPerDay) (rand (i + k)))
          data := by
  induction fuel with
  | zero => intro d i data h; omega
  | succ fuel ih =>
    intro d i data h
    unfold sampleLoop
    by_cases hd : d ≤ endDate
    · rw [if_pos hd, setDate_getDate_add off d 1]
      have hn : ((endDate - d) / msPerDay + 1).toNat
          = ((endDate - (d + 1 * msPerDay)) / msPerDay + 1).toNat + 1 := by
        unfold msPerDay; omega
      rw [ih _ _ _ (by omega), hn, List.range_succ_eq_map, List.foldl_cons, List.foldl_map]
      have e : ∀ k : Nat, d + 1 * msPerDay + (k : Int) * msPerDay
          = d + ((k + 1 : Nat) : Int) * msPerDay := by
        intro k; push_cast; ring
      have e2 : ∀ k : Nat, i + 1 + k = i + (k + 1) := by intro k; omega
      simp only [e, e2, Nat.succ_eq_add_one, Nat.cast_zero, zero_mul, add_zero, Nat.add_zero]
    · rw [if_neg hd]
      have hn : ((endDate - d) / msPerDay + 1).toNat = 0 := by
        unfold msPerDay; omega
      rw [hn]
      rfl

/-- The function `generateSampleData` returns after `sampleDays` steps: one
`putCount` for each local day from 2020-01-01 to the day of `now`. -/
theorem generateSampleData_eq (off now : Int) (rand : Nat → Rand) :
    generateSampleData off now rand =
      (List.range (sampleDays off now)).foldl
        (fun acc (k : Nat) => putCount acc
          (getFullYear off (sampleStart off + (k : Int) * msPerDay))
          (toISODate (sampleStart off + (k : Int) * msPerDay))
          (rand k).floor6) [] := by
  unfold generateSampleData sampleFuel
  rw [sampleLoop_eq off now rand _ _ _ _ (by unfold sampleDays; omega)]
  unfold sampleDays sampleStep
  simp only [Nat.zero_add]

theorem floor6_range (r : Rand) : 0 ≤ r.floor6 ∧ r.floor6 ≤ 5 := by
  unfold Rand.floor6
  have h := r.lt
  have h2 : r.num * 6 / r.den < 6 := by
    apply Nat.div_lt_of_lt_mul
    omega
  constructor
  · exact Int.ofNat_nonneg _
  · have h3 : ((r.num * 6 / r.den : Nat) : Int) < 6 := by exact_mod_cast h2
    omega

theorem sampleStart_eq (off : Int) :
    sampleStart off = dayFromYear 2020 * msPerDay - off * msPerMinute := by
  unfold sampleStart
  rw [newDate_jan1]
  rfl

theorem sampleDays_eq (off now : Int) (h : sampleStart off ≤ now) :
    ((sampleDays off now : Nat) : Int) = day (localTime off now) - dayFromYear 2020 + 1 := by
  unfold sampleDays
  rw [sampleStart_eq] at h ⊢
  unfold day localTime msPerDay msPerMinute at *
  omega

theorem sampleStep_year (off : Int) (k : Nat) :
    getFullYear off (sampleStart off + (k : Int) * msPerDay)
      = yearFromDay (dayFromYear 2020 + k) := by
  unfold getFullYear
  have h : day (localTime off (sampleStart off + (k : Int) * msPerDay))
      = dayFromYear 2020 + k := by
    rw [sampleStart_eq]
    unfold day localTime msPerDay msPerMinute
    omega
  rw [h]

theorem sampleStep_key (off : Int) (k : Nat) :
    toISODate (sampleStart off + (k : Int) * msPerDay)
      = isoOfDay (dayFromYear 2020 + k + (-(off * msPerMinute)) / msPerDay) := by
  rw [toISODate_eq_isoOfDay]
  have h : day (sampleStart off + (k : Int) * msPerDay)
      = dayFromYear 2020 + k + (-(off * msPerMinute)) / msPerDay := by
    rw [sampleStart_eq]
    unfold day msPerDay msPerMinute
    omega
  rw [h]

/-- The synthetic dataset for any offset: every local day from 2020-01-01 to the
day of `now` has an entry in the bucket of its year, keyed by the date text of
the UTC day of its local midnight; there is no other entry, and every count is
between 0 and 5. -/
theorem generateSampleData_entries (off now : Int) (rand : Nat → Rand) :
    (∀ k : Nat, k < sampleDays off now →
      HasEntry (generateSampleData off now rand) (yearFromDay (dayFromYear 2020 + k))
        (isoOfDay (dayFromYear 2020 + k + (-(off * msPerMinute)) / msPerDay))) ∧
    (∀ (y : Int) (b : YearData) (s : String) (c : Int),
      (y, b) ∈ generateSampleData off now rand → (s, c) ∈ b →
      ∃ k : Nat, k < sampleDays off now ∧ y = yearFromDay (dayFromYear 2020 + k) ∧
        s = isoOfDay (dayFromYear 2020 + k + (-(off * msPerMinute)) / msPerDay) ∧
        0 ≤ c ∧ c ≤ 5) := by
  rw [generateSampleData_eq]
  simp only [sampleStep_year, sampleStep_key]
  constructor
  · intro k hk
    exact foldl_putCount_hasEntry
      (fun k => yearFromDay (dayFromYear 2020 + k))
      (fun k => isoOfDay (dayFromYear 2020 + k + (-(off * msPerMinute)) / msPerDay))
      (fun k => (rand k).floor6) _ [] k (List.mem_range.2 hk)
  · intro y b s c hb hs
    rcases foldl_putCount_mem
      (fun k => yearFromDay (dayFromYear 2020 + k))
      (fun k => isoOfDay (dayFromYear 2020 + k + (-(off * msPerMinute)) / msPerDay))
      (fun k => (rand k).floor6) _ [] y b s c hb hs with ⟨k, hk, hy, hs2, hc⟩ | ⟨b2, hb2, _⟩
    · have hr := floor6_range (rand k)
      exact ⟨k, List.mem_range.1 hk, hy, hs2, by rw [hc]; exact hr.1, by rw [hc]; exact hr.2⟩
    · cases hb2

/-- For every offset at or west of UTC (by less than a day), when
`now` is on or after 2020-01-01 (local), every calendar day from 2020-01-01 to
the current local date has an entry keyed by its own date text in the bucket of
its year, every entry belongs to such a day, and every count is between 0 and
5. -/
theorem generateSampleData_west (off now : Int) (rand : Nat → Rand)
    (hoff : -1440 < off ∧ off ≤ 0) (hnow : sampleStart off ≤ now) :
    (∀ D : Int, dayFromYear 2020 ≤ D → D ≤ day (localTime off now) →
      HasEntry (generateSampleData off now rand) (yearFromDay D) (isoOfDay D)) ∧
    (∀ (y : Int) (b : YearData) (s : String) (c : Int),
      (y, b) ∈ generateSampleData off now rand → (s, c) ∈ b →
      ∃ D : Int, dayFromYear 2020 ≤ D ∧ D ≤ day (localTime off now) ∧
        y = yearFromDay D ∧ s = isoOfDay D ∧ 0 ≤ c ∧ c ≤ 5) := by
  have h := generateSampleData_entries off now rand
  have hs : (-(off * msPerMinute)) / msPerDay = 0 := by
    unfold msPerMinute msPerDay; omega
  have hn := sampleDays_eq off now hnow
  rw [hs] at h
  simp only [add_zero] at h
  constructor
  · intro D h1 h2
    have hk := h.1 (D - dayFromYear 2020).toNat (by omega)
    have e : dayFromYear 2020 + (((D - dayFromYear 2020).toNat : Nat) : Int) = D := by omega
    rw [e] at hk
    exact hk
  · intro y b s c hb hsc
    obtain ⟨k, hk, hy, hkey, hc⟩ := h.2 y b s c hb hsc
    exact ⟨dayFromYear 2020 + k, by omega, by omega, hy, hkey, hc⟩

theorem generateSampleData_west_witness :
    (∀ D : Int, dayFromYear 2020 ≤ D → D ≤ day (localTime (-300) (newDate (-300) 2020 0 2)) →
      HasEntry (generateSampleData (-300) (newDate (-300) 2020 0 2) (fun _ => oneHalf))
        (yearFromDay D) (isoOfDay D)) ∧
    (∀ (y : Int) (b : YearData) (s : String) (c : Int),
      (y, b) ∈ generateSampleData (-300) (newDate (-300) 2020 0 2) (fun _ => oneHalf) →
      (s, c) ∈ b →
      ∃ D : Int, dayFromYear 2020 ≤ D ∧ D ≤ day (localTime (-300) (newDate (-300) 2020 0 2)) ∧
        y = yearFromDay D ∧ s = isoOfDay D ∧ 0 ≤ c ∧ c ≤ 5) :=
  generateSampleData_west (-300) (newDate (-300) 2020 0 2) (fun _ => oneHalf) (by decide)
    (by decide)

/-- East of UTC (by at most a day) every entry of the synthetic dataset is
keyed by the date text of the day before the local day it was made for: the
first key is 2019-12-31 and the current local date has no key of its own day. -/
theorem generateSampleData_east (off now : Int) (rand : Nat → Rand)
    (hoff : 0 < off ∧ off ≤ 1440) (hnow : sampleStart off ≤ now) :
    (∀ D : Int, dayFromYear 2020 ≤ D → D ≤ day (localTime off now) →
      HasEntry (generateSampleData off now rand) (yearFromDay D) (isoOfDay (D - 1))) ∧
    (∀ (y : Int) (b : YearData) (s : String) (c : Int),
      (y, b) ∈ generateSampleData off now rand → (s, c) ∈ b →
      ∃ D : Int, dayFromYear 2020 ≤ D ∧ D ≤ day (localTime off now) ∧
        y = yearFromDay D ∧ s = isoOfDay (D - 1) ∧ 0 ≤ c ∧ c ≤ 5) := by
  have h := generateSampleData_entries off now rand
  have hs : (-(off * msPerMinute)) / msPerDay = -1 := by
    unfold msPerMinute msPerDay; omega
  have hn := sampleDays_eq off now hnow
  rw [hs] at h
  constructor
  · intro D h1 h2
    have hk := h.1 (D - dayFromYear 2020).toNat (by omega)
    have e : dayFromYear 2020 + (((D - dayFromYear 2020).toNat : Nat) : Int) = D := by omega
    rw [e] at hk
    exact hk
  · intro y b s c hb hsc
    obtain ⟨k, hk, hy, hkey, hc⟩ := h.2 y b s c hb hsc
    exact ⟨dayFromYear 2020 + k, by omega, by omega, hy, hkey, hc⟩

theorem generateSampleData_east_witness :
    (∀ D : Int, dayFromYear 2020 ≤ D → D ≤ day (localTime 60 (newDate 60 2020 0 2)) →
      HasEntry (generateSampleData 60 (newDate 60 2020 0 2) (fun _ => oneHalf))
        (yearFromDay D) (isoOfDay (D - 1))) ∧
    (∀ (y : Int) (b : YearData) (s : String) (c : Int),
      (y, b) ∈ generateSampleData 60 (newDate 60 2020 0 2) (fun _ => oneHalf) →
      (s, c) ∈ b →
      ∃ D : Int, dayFromYear 2020 ≤ D ∧ D ≤ day (localTime 60 (newDate 60 2020 0 2)) ∧
        y = yearFromDay D ∧ s = isoOfDay (D - 1) ∧ 0 ≤ c ∧ c ≤ 5) :=
  generateSampleData_east 60 (newDate 60 2020 0 2) (fun _ => oneHalf) (by decide) (by decide)

/-! ## C3, C7: dates east of UTC -/

/-- C3, evaluated one hour east of UTC for 2024: the square of Monday in the
first column, which stands for January 1, carries the date 2023-12-31 and the
count 0, although the dataset has 3 submissions on 2024-01-01; the square of
December 31 (row 2 of the last column) carries 2024-12-30. -/
theorem updateHeatmap_east_of_utc :
    getDay 60 (cellTime 60 2024 0 1) = 1 ∧
    cellTime 60 2024 0 1 = newDate 60 2024 0 1 ∧
    ((updateHeatmap 60 newYear2024 ⟨false, false⟩ 2024).weeks[0]?.bind (fun col => col[1]?))
      = some ⟨some "2023-12-31", 0, some 0, true⟩ ∧
    cellTime 60 2024 52 2 = newDate 60 2024 11 31 ∧
    ((updateHeatmap 60 newYear2024 ⟨false, false⟩ 2024).weeks[52]?.bind (fun col => col[2]?))
      = some ⟨some "2024-12-30", 0, some 0, true⟩ := by
  refine ⟨by decide, by decide, by decide, by decide, ?_⟩
  rw [updateHeatmap_square 60 newYear2024 ⟨false, false⟩ 2024 52 2 (by decide) (by decide)]
  decide

/-- C7, evaluated one hour east of UTC when the current date is 2020-01-02
(local midnight): the two days 2020-01-01 and 2020-01-02 are keyed 2019-12-31
and 2020-01-01, so 2020-01-02 is missing and 2019-12-31 is outside the range. -/
theorem generateSampleData_east_of_utc :
    getFullYear 60 (newDate 60 2020 0 2) = 2020 ∧
    getDate 60 (newDate 60 2020 0 2) = 2 ∧
    generateSampleData 60 (newDate 60 2020 0 2) (fun _ => oneHalf)
      = [(2020, [("2019-12-31", 3), ("2020-01-01", 3)])] := by
  decide

/-! ## Year navigation: what holds for every dataset -/

theorem codeUnitsLt_irrefl (x : List Char) : codeUnitsLt x x = false := by
  induction x with
  | nil => rfl
  | cons a as ih => simp [codeUnitsLt, ih]

theorem codeUnitsLt_asymm (x : List Char) :
    ∀ y : List Char, codeUnitsLt x y = true → codeUnitsLt y x = false := by
  induction x with
  | nil => intro y _; cases y <;> rfl
  | cons a as ih =>
    intro y h
    cases y with
    | nil => simp [codeUnitsLt] at h
    | cons b bs =>
      unfold codeUnitsLt at h ⊢
      by_cases h1 : a.toNat < b.toNat
      · have h2 : ¬ b.toNat < a.toNat := by omega
        simp [h1, h2]
      · by_cases h2 : b.toNat < a.toNat
        · simp [h1, h2] at h
        · simp only [h1, h2, if_false] at h ⊢
          exact ih bs h

theorem codeUnitsLt_trans_le (x : List Char) :
    ∀ y z : List Char, codeUnitsLt y x = false → codeUnitsLt z y = false →
      codeUnitsLt z x = false := by
  induction x with
  | nil => intro y z _ _; cases z <;> rfl
  | cons a as ih =>
    intro y z h1 h2
    cases y with
    | nil => simp [codeUnitsLt] at h1
    | cons b bs =>
      cases z with
      | nil => simp [codeUnitsLt] at h2
      | cons c cs =>
        unfold codeUnitsLt at h1 h2 ⊢
        by_cases hba : b.toNat < a.toNat
        · simp [hba] at h1
        · by_cases hab : a.toNat < b.toNat
          · by_cases hcb : c.toNat < b.toNat
            · simp [hcb] at h2
            · have hca : ¬ c.toNat < a.toNat := by omega
              have hac : a.toNat < c.toNat := by omega
              simp [hca, hac]
          · simp only [hba, hab, if_false] at h1
            by_cases hcb : c.toNat < b.toNat
            · simp [hcb] at h2
            · by_cases hbc : b.toNat < c.toNat
              · have hca : ¬ c.toNat < a.toNat := by omega
                have hac : a.toNat < c.toNat := by omega
                simp [hca, hac]
              · simp only [hcb, hbc, if_false] at h2
                have hca : ¬ c.toNat < a.toNat := by omega
                have hac : ¬ a.toNat < c.toNat := by omega
                simp only [hca, hac, if_false]
                exact ih bs cs h1 h2

theorem sortLe_total (a b : Int) : sortLe a b ∨ sortLe b a := by
  unfold sortLe
  by_cases h : codeUnitsLt (numberToString b) (numberToString a) = true
  · exact Or.inr (codeUnitsLt_asymm _ _ h)
  · exact Or.inl (by simpa using h)

theorem sortLe_trans (a b c : Int) (hab : sortLe a b) (hbc : sortLe b c) : sortLe a c := by
  unfold sortLe at *
  exact codeUnitsLt_trans_le (numberToString a) (numberToString b) (numberToString c) hab hbc

/-- The array `sort()` returns holds the same numbers, ordered by the ES
comparison of their strings. -/
theorem jsSort_sorted_perm (xs : List Int) :
    (jsSort xs).Perm xs ∧ (jsSort xs).Pairwise sortLe :=
  ⟨List.perm_insertionSort _ _,
    @List.sorted_insertionSort Int sortLe _ ⟨sortLe_total⟩ ⟨sortLe_trans⟩ xs⟩

theorem indexOf_ge (l : List Int) (x : Int) : -1 ≤ indexOf l x := by
  induction l with
  | nil => simp [indexOf]
  | cons y ys ih =>
    unfold indexOf
    split_ifs <;> omega

theorem indexOf_lt_length (l : List Int) (x : Int) : indexOf l x < (l.length : Int) := by
  induction l with
  | nil => simp [indexOf]
  | cons y ys ih =>
    unfold indexOf
    simp only [List.length_cons, Nat.cast_add, Nat.cast_one]
    split_ifs <;> omega

theorem indexOf_neg_iff (l : List Int) (x : Int) : indexOf l x < 0 ↔ x ∉ l := by
  induction l with
  | nil => simp [indexOf]
  | cons y ys ih =>
    unfold indexOf
    have hge := indexOf_ge ys x
    by_cases h : y = x
    · simp [h]
    · have h2 : ¬ x = y := fun e => h e.symm
      simp only [h, if_false, List.mem_cons, h2, false_or]
      rw [← ih]
      split_ifs <;> omega

theorem getElem?_indexOf (l : List Int) (x : Int) (h : 0 ≤ indexOf l x) :
    l[(indexOf l x).toNat]? = some x := by
  induction l with
  | nil => simp [indexOf] at h
  | cons y ys ih =>
    unfold indexOf at h ⊢
    by_cases hy : y = x
    · simp [hy]
    · simp only [hy, if_false] at h ⊢
      by_cases hi : indexOf ys x < 0
      · simp [hi] at h
      · simp only [hi, if_false] at h ⊢
        have h0 : 0 ≤ indexOf ys x := by omega
        have e : (indexOf ys x + 1).toNat = (indexOf ys x).toNat + 1 := by omega
        rw [e, List.getElem?_cons_succ]
        exact ih h0

/-- In an array without repetitions, `indexOf` finds the index of an element. -/
theorem indexOf_getElem (l : List Int) (hn : l.Nodup) (i : Nat) (x : Int)
    (h : l[i]? = some x) : indexOf l x = (i : Int) := by
  induction l generalizing i with
  | nil => simp at h
  | cons y ys ih =>
    rw [List.nodup_cons] at hn
    unfold indexOf
    cases i with
    | zero =>
      simp only [List.getElem?_cons_zero, Option.some.injEq] at h
      simp [h]
    | succ j =>
      rw [List.getElem?_cons_succ] at h
      have hmem : x ∈ ys := List.getElem?_mem h
      have hne : ¬ y = x := by
        intro e; rw [e] at hn; exact hn.1 hmem
      have hi := ih hn.2 j h
      simp only [hne, if_false, hi]
      push_cast
      split_ifs <;> omega

theorem mem_ownKeys (o : Dataset) (k : Int) : k ∈ ownKeys o ↔ ∃ v, (k, v) ∈ o := by
  induction o with
  | nil => simp [ownKeys]
  | cons p rest ih =>
    obtain ⟨k2, v2⟩ := p
    unfold ownKeys
    simp only [List.mem_cons, List.mem_filter, ih, Prod.mk.injEq]
    constructor
    · rintro (h | ⟨⟨v, hv⟩, _⟩)
      · exact ⟨v2, Or.inl ⟨h, rfl⟩⟩
      · exact ⟨v, Or.inr hv⟩
    · rintro ⟨v, (⟨h, _⟩ | hv)⟩
      · exact Or.inl h
      · by_cases hk : k = k2
        · exact Or.inl hk
        · exact Or.inr ⟨⟨v, hv⟩, by simpa using hk⟩

theorem nodup_ownKeys (o : Dataset) : (ownKeys o).Nodup := by
  induction o with
  | nil => simp [ownKeys]
  | cons p rest ih =>
    obtain ⟨k2, v2⟩ := p
    unfold ownKeys
    rw [List.nodup_cons]
    exact ⟨by simp [List.mem_filter], ih.filter _⟩

theorem objectKeysNumbers_perm (data : Dataset) :
    (objectKeysNumbers data).Perm (ownKeys data) := by
  unfold objectKeysNumbers
  simp only
  refine ((List.perm_insertionSort _ _).append_right _).trans ?_
  exact List.filter_append_perm _ _

theorem yearsOf_perm (data : Dataset) : (yearsOf data).Perm (ownKeys data) := by
  unfold yearsOf jsSort
  exact (List.perm_insertionSort _ _).trans (objectKeysNumbers_perm data)

theorem mem_yearsOf (data : Dataset) (k : Int) : k ∈ yearsOf data ↔ ∃ v, (k, v) ∈ data := by
  rw [(yearsOf_perm data).mem_iff, mem_ownKeys]

theorem nodup_yearsOf (data : Dataset) : (yearsOf data).Nodup :=
  (yearsOf_perm data).nodup_iff.2 (nodup_ownKeys data)

theorem yearsOf_ne_nil (data : Dataset) (h : data ≠ []) : yearsOf data ≠ [] := by
  cases data with
  | nil => exact absurd rfl h
  | cons p rest =>
    intro hnil
    have hm : p.1 ∈ yearsOf (p :: rest) := (mem_yearsOf _ _).2 ⟨p.2, List.mem_cons_self _ _⟩
    rw [hnil] at hm
    cases hm

theorem lt_of_index_lt (l : List Int) (hs : l.Pairwise (· < ·)) (a b : Nat) (x y : Int)
    (ha : l[a]? = some x) (hb : l[b]? = some y) (hab : a < b) : x < y := by
  obtain ⟨ha1, ha2⟩ := List.getElem?_eq_some.1 ha
  obtain ⟨hb1, hb2⟩ := List.getElem?_eq_some.1 hb
  rw [← ha2, ← hb2]
  exact List.pairwise_iff_getElem.1 hs a b ha1 hb1 hab

theorem index_lt_of_lt (l : List Int) (hs : l.Pairwise (· < ·)) (a b : Nat) (x y : Int)
    (ha : l[a]? = some x) (hb : l[b]? = some y) (hxy : x < y) : a < b := by
  rcases Nat.lt_trichotomy a b with h | h | h
  · exact h
  · subst h
    rw [ha] at hb
    cases hb
    omega
  · have := lt_of_index_lt l hs b a y x hb ha h
    omega

/-- When `sort()` happens to order the years numerically, the `prevYear` handler
moves to the greatest smaller year of the dataset and renders it, and changes
nothing at the minimum year. -/
theorem prevYear_numeric (off : Int) (w : Widget)
    (hs : (yearsOf w.allSubmissionData).Pairwise (· < ·))
    (hm : w.currentYear ∈ yearsOf w.allSubmissionData) :
    (∀ p, p ∈ yearsOf w.allSubmissionData → p < w.currentYear →
      (∀ k ∈ yearsOf w.allSubmissionData, k < w.currentYear → k ≤ p) →
      prevYear off w = Widget.render off { w with currentYear := p } p) ∧
    ((∀ k ∈ yearsOf w.allSubmissionData, w.currentYear ≤ k) → prevYear off w = w) := by
  have hi0 : 0 ≤ indexOf (yearsOf w.allSubmissionData) w.currentYear := by
    by_contra hneg
    exact (indexOf_neg_iff _ _).1 (by omega) hm
  have hcur := getElem?_indexOf _ _ hi0
  have hlen := indexOf_lt_length (yearsOf w.allSubmissionData) w.currentYear
  constructor
  · intro p hp hlt hgreatest
    obtain ⟨j, hj⟩ := List.getElem?_of_mem hp
    have hji := index_lt_of_lt _ hs j _ p w.currentYear hj hcur hlt
    have hpos : indexOf (yearsOf w.allSubmissionData) w.currentYear > 0 := by omega
    have hidx : (indexOf (yearsOf w.allSubmissionData) w.currentYear - 1).toNat
        < (yearsOf w.allSubmissionData).length := by omega
    obtain ⟨q, hq⟩ : ∃ q, (yearsOf w.allSubmissionData)[
        (indexOf (yearsOf w.allSubmissionData) w.currentYear - 1).toNat]? = some q :=
      ⟨_, List.getElem?_eq_getElem hidx⟩
    have hqlt : q < w.currentYear :=
      lt_of_index_lt _ hs _ _ q w.currentYear hq hcur (by omega)
    have hqp : q ≤ p := hgreatest q (List.getElem?_mem hq) hqlt
    have hpq : p ≤ q := by
      by_contra hnot
      have := index_lt_of_lt _ hs _ j q p hq hj (by omega)
      omega
    have e : q = p := by omega
    unfold prevYear
    simp only [hpos, if_true, hq, e]
  · intro hmin
    have hnot : ¬ indexOf (yearsOf w.allSubmissionData) w.currentYear > 0 := by
      intro hpos
      have hidx : (indexOf (yearsOf w.allSubmissionData) w.currentYear - 1).toNat
          < (yearsOf w.allSubmissionData).length := by omega
      have hq := List.getElem?_eq_getElem hidx
      have hqlt := lt_of_index_lt _ hs _ _ _ w.currentYear hq hcur (by omega)
      have := hmin _ (List.getElem?_mem hq)
      omega
    unfold prevYear
    simp only [hnot, if_false]

/-- When `sort()` happens to order the years numerically, the `nextYear` handler
moves to the least greater year of the dataset and renders it, and changes
nothing at the maximum year. -/
theorem nextYear_numeric (off : Int) (w : Widget)
    (hs : (yearsOf w.allSubmissionData).Pairwise (· < ·))
    (hm : w.currentYear ∈ yearsOf w.allSubmissionData) :
    (∀ n, n ∈ yearsOf w.allSubmissionData → w.currentYear < n →
      (∀ k ∈ yearsOf w.allSubmissionData, w.currentYear < k → n ≤ k) →
      nextYear off w = Widget.render off { w with currentYear := n } n) ∧
    ((∀ k ∈ yearsOf w.allSubmissionData, k ≤ w.currentYear) → nextYear off w = w) := by
  have hi0 : 0 ≤ indexOf (yearsOf w.allSubmissionData) w.currentYear := by
    by_contra hneg
    exact (indexOf_neg_iff _ _).1 (by omega) hm
  have hcur := getElem?_indexOf _ _ hi0
  constructor
  · intro n hn hlt hleast
    obtain ⟨j, hj⟩ := List.getElem?_of_mem hn
    have hjlen : j < (yearsOf w.allSubmissionData).length := by
      obtain ⟨h1, _⟩ := List.getElem?_eq_some.1 hj
      exact h1
    have hij := index_lt_of_lt _ hs _ j w.currentYear n hcur hj hlt
    have hcond : indexOf (yearsOf w.allSubmissionData) w.currentYear
        < ((yearsOf w.allSubmissionData).length : Int) - 1 := by omega
    have hidx : (indexOf (yearsOf w.allSubmissionData) w.currentYear + 1).toNat
        < (yearsOf w.allSubmissionData).length := by omega
    obtain ⟨q, hq⟩ : ∃ q, (yearsOf w.allSubmissionData)[
        (indexOf (yearsOf w.allSubmissionData) w.currentYear + 1).toNat]? = some q :=
      ⟨_, List.getElem?_eq_getElem hidx⟩
    have hqgt : w.currentYear < q :=
      lt_of_index_lt _ hs _ _ w.currentYear q hcur hq (by omega)
    have hnq : n ≤ q := hleast q (List.getElem?_mem hq) hqgt
    have hqn : q ≤ n := by
      by_contra hnot
      have := index_lt_of_lt _ hs j _ n q hj hq (by omega)
      omega
    have e : q = n := by omega
    unfold nextYear
    simp only [hcond, if_true, hq, e]
  · intro hmax
    have hnot : ¬ indexOf (yearsOf w.allSubmissionData) w.currentYear
        < ((yearsOf w.allSubmissionData).length : Int) - 1 := by
      intro hcond
      have hidx : (indexOf (yearsOf w.allSubmissionData) w.currentYear + 1).toNat
          < (yearsOf w.allSubmissionData).length := by omega
      have hq := List.getElem?_eq_getElem hidx
      have hqgt := lt_of_index_lt _ hs _ _ w.currentYear _ hcur hq (by omega)
      have := hmax _ (List.getElem?_mem hq)
      omega
    unfold nextYear
    simp only [hnot, if_false]

/-- With a selected year that is not in the dataset, the `prevYear` handler
changes nothing. -/
theorem prevYear_absent (off : Int) (w : Widget)
    (h : w.currentYear ∉ yearsOf w.allSubmissionData) : prevYear off w = w := by
  have hneg := (indexOf_neg_iff _ _).2 h
  have hnot : ¬ indexOf (yearsOf w.allSubmissionData) w.currentYear > 0 := by omega
  unfold prevYear
  simp only [hnot, if_false]

/-- With a selected year that is not in a non-empty dataset, the `nextYear`
handler selects and renders the first element of the sorted array `years`. -/
theorem nextYear_absent (off : Int) (w : Widget)
    (h : w.currentYear ∉ yearsOf w.allSubmissionData) (y : Int) (ys : List Int)
    (hy : yearsOf w.allSubmissionData = y :: ys) :
    nextYear off w = Widget.render off { w with currentYear := y } y := by
  have hneg := (indexOf_neg_iff _ _).2 h
  have hge := indexOf_ge (yearsOf w.allSubmissionData) w.currentYear
  have he : indexOf (yearsOf w.allSubmissionData) w.currentYear = -1 := by omega
  rw [hy] at he
  have hcond : indexOf (y :: ys) w.currentYear < (((y :: ys).length : Nat) : Int) - 1 := by
    rw [he]; simp only [List.length_cons]; push_cast; omega
  have hc2 : (-1 : Int) < (((y :: ys).length : Nat) : Int) - 1 := by rw [← he]; exact hcond
  have h0 : ((-1 : Int) + 1).toNat = 0 := by decide
  unfold nextYear
  simp only [hy, he, h0, List.getElem?_cons_zero]
  rw [if_pos hc2]

theorem prevYear_absent_witness :
    prevYear 0 (showing 0 recentYears 2030) = showing 0 recentYears 2030 :=
  prevYear_absent 0 (showing 0 recentYears 2030) (by decide)

theorem nextYear_absent_witness :
    nextYear 0 (showing 0 recentYears 2030)
      = Widget.render 0 { showing 0 recentYears 2030 with currentYear := 2024 } 2024 :=
  nextYear_absent 0 (showing 0 recentYears 2030) (by decide) 2024 [2025, 2026] (by decide)

/-- A handler never touches the dataset, and a year it selects is a year of
the dataset that it has just rendered. -/
theorem prevYear_selects_member (off : Int) (w : Widget) :
    (prevYear off w).allSubmissionData = w.allSubmissionData ∧
    (prevYear off w = w ∨
      ((prevYear off w).currentYear ∈ yearsOf w.allSubmissionData ∧
        (prevYear off w).trace = w.trace ++ [Effect.render (prevYear off w).currentYear])) := by
  unfold prevYear
  simp only
  split_ifs with hpos
  · cases hq : (yearsOf w.allSubmissionData)[
        (indexOf (yearsOf w.allSubmissionData) w.currentYear - 1).toNat]? with
    | none => exact ⟨rfl, Or.inl rfl⟩
    | some q => exact ⟨rfl, Or.inr ⟨List.getElem?_mem hq, rfl⟩⟩
  · exact ⟨rfl, Or.inl rfl⟩

theorem nextYear_selects_member (off : Int) (w : Widget) :
    (nextYear off w).allSubmissionData = w.allSubmissionData ∧
    (nextYear off w = w ∨
      ((nextYear off w).currentYear ∈ yearsOf w.allSubmissionData ∧
        (nextYear off w).trace = w.trace ++ [Effect.render (nextYear off w).currentYear])) := by
  unfold nextYear
  simp only
  split_ifs with hpos
  · cases hq : (yearsOf w.allSubmissionData)[
        (indexOf (yearsOf w.allSubmissionData) w.currentYear + 1).toNat]? with
    | none => exact ⟨rfl, Or.inl rfl⟩
    | some q => exact ⟨rfl, Or.inr ⟨List.getElem?_mem hq, rfl⟩⟩
  · exact ⟨rfl, Or.inl rfl⟩

theorem mathMin_spec (x : Int) (xs : List Int) :
    mathMin x xs ∈ x :: xs ∧ ∀ k ∈ x :: xs, mathMin x xs ≤ k := by
  unfold mathMin
  induction xs generalizing x with
  | nil => simp
  | cons y ys ih =>
    rw [List.foldl_cons]
    obtain ⟨h1, h2⟩ := ih (min x y)
    constructor
    · rcases List.mem_cons.1 h1 with h | h
      · rw [h]
        rcases min_choice x y with hc | hc <;> rw [hc] <;> simp
      · exact List.mem_cons_of_mem _ (List.mem_cons_of_mem _ h)
    · intro k hk
      have hmin := h2 (min x y) (List.mem_cons_self _ _)
      rcases List.mem_cons.1 hk with h | h
      · rw [h]; exact le_trans hmin (min_le_left x y)
      · rcases List.mem_cons.1 h with h | h
        · rw [h]; exact le_trans hmin (min_le_right x y)
        · exact h2 k (List.mem_cons_of_mem _ h)

theorem mathMax_spec (x : Int) (xs : List Int) :
    mathMax x xs ∈ x :: xs ∧ ∀ k ∈ x :: xs, k ≤ mathMax x xs := by
  unfold mathMax
  induction xs generalizing x with
  | nil => simp
  | cons y ys ih =>
    rw [List.foldl_cons]
    obtain ⟨h1, h2⟩ := ih (max x y)
    constructor
    · rcases List.mem_cons.1 h1 with h | h
      · rw [h]
        rcases max_choice x y with hc | hc <;> rw [hc] <;> simp
      · exact List.mem_cons_of_mem _ (List.mem_cons_of_mem _ h)
    · intro k hk
      have hmax := h2 (max x y) (List.mem_cons_self _ _)
      rcases List.mem_cons.1 hk with h | h
      · rw [h]; exact le_trans (le_max_left x y) hmax
      · rcases List.mem_cons.1 h with h | h
        · rw [h]; exact le_trans (le_max_right x y) hmax
        · exact h2 k (List.mem_cons_of_mem _ h)

/-- Within the model (every year key is a number, none is `NaN`): for a
non-empty dataset `updateHeatmap` disables the previous-year button
exactly when the rendered year is at most the minimum year of the dataset, and
the next-year button exactly when it is at least the maximum year. -/
theorem updateHeatmap_buttons (off : Int) (data : Dataset) (btn : Buttons) (year : Int)
    (hne : data ≠ []) :
    ∃ lo hi, (∃ v, (lo, v) ∈ data) ∧ (∀ k v, (k, v) ∈ data → lo ≤ k) ∧
      (∃ v, (hi, v) ∈ data) ∧ (∀ k v, (k, v) ∈ data → k ≤ hi) ∧
      ((updateHeatmap off data btn year).buttons.prevDisabled = true ↔ year ≤ lo) ∧
      ((updateHeatmap off data btn year).buttons.nextDisabled = true ↔ year ≥ hi) := by
  cases hy : yearsOf data with
  | nil => exact absurd hy (yearsOf_ne_nil data hne)
  | cons y ys =>
    have hmin := mathMin_spec y ys
    have hmax := mathMax_spec y ys
    rw [← hy] at hmin hmax
    refine ⟨mathMin y ys, mathMax y ys, (mem_yearsOf _ _).1 hmin.1, ?_,
      (mem_yearsOf _ _).1 hmax.1, ?_, ?_, ?_⟩
    · intro k v hk
      exact hmin.2 k ((mem_yearsOf _ _).2 ⟨v, hk⟩)
    · intro k v hk
      exact hmax.2 k ((mem_yearsOf _ _).2 ⟨v, hk⟩)
    · unfold updateHeatmap
      simp only [hy, decide_eq_true_eq]
    · unfold updateHeatmap
      simp only [hy, decide_eq_true_eq]

/-- The numeric case at a concrete input: the years 2024, 2025 and 2026, with
2025 selected. -/
theorem prevYear_numeric_witness :
    (∀ p, p ∈ yearsOf (showing 0 recentYears 2025).allSubmissionData →
      p < (showing 0 recentYears 2025).currentYear →
      (∀ k ∈ yearsOf (showing 0 recentYears 2025).allSubmissionData,
        k < (showing 0 recentYears 2025).currentYear → k ≤ p) →
      prevYear 0 (showing 0 recentYears 2025)
        = Widget.render 0 { showing 0 recentYears 2025 with currentYear := p } p) ∧
    ((∀ k ∈ yearsOf (showing 0 recentYears 2025).allSubmissionData,
        (showing 0 recentYears 2025).currentYear ≤ k) →
      prevYear 0 (showing 0 recentYears 2025) = showing 0 recentYears 2025) :=
  prevYear_numeric 0 (showing 0 recentYears 2025) (by decide) (by decide)

theorem nextYear_numeric_witness :
    (∀ n, n ∈ yearsOf (showing 0 recentYears 2025).allSubmissionData →
      (showing 0 recentYears 2025).currentYear < n →
      (∀ k ∈ yearsOf (showing 0 recentYears 2025).allSubmissionData,
        (showing 0 recentYears 2025).currentYear < k → n ≤ k) →
      nextYear 0 (showing 0 recentYears 2025)
        = Widget.render 0 { showing 0 recentYears 2025 with currentYear := n } n) ∧
    ((∀ k ∈ yearsOf (showing 0 recentYears 2025).allSubmissionData,
        k ≤ (showing 0 recentYears 2025).currentYear) →
      nextYear 0 (showing 0 recentYears 2025) = showing 0 recentYears 2025) :=
  nextYear_numeric 0 (showing 0 recentYears 2025) (by decide) (by decide)

theorem updateHeatmap_buttons_witness :
    ∃ lo hi, (∃ v, (lo, v) ∈ recentYears) ∧ (∀ k v, (k, v) ∈ recentYears → lo ≤ k) ∧
      (∃ v, (hi, v) ∈ recentYears) ∧ (∀ k v, (k, v) ∈ recentYears → k ≤ hi) ∧
      ((updateHeatmap 0 recentYears ⟨false, false⟩ 2024).buttons.prevDisabled = true
        ↔ 2024 ≤ lo) ∧
      ((updateHeatmap 0 recentYears ⟨false, false⟩ 2024).buttons.nextDisabled = true
        ↔ 2024 ≥ hi) :=
  updateHeatmap_buttons 0 recentYears ⟨false, false⟩ 2024 (by decide)

/-- Once `updateHeatmap` has run for a year that is at most every year of a
non-empty dataset, the previous-year button is disabled and a user click on it
changes nothing; likewise for the next-year button at or above the maximum. -/
theorem click_at_bound (off : Int) (w : Widget) (year : Int)
    (hne : w.allSubmissionData ≠ []) :
    ((∀ k v, (k, v) ∈ w.allSubmissionData → year ≤ k) →
      clickPrev off (Widget.render off w year) = Widget.render off w year) ∧
    ((∀ k v, (k, v) ∈ w.allSubmissionData → k ≤ year) →
      clickNext off (Widget.render off w year) = Widget.render off w year) := by
  obtain ⟨lo, hi, ⟨vlo, hlo⟩, _, ⟨vhi, hhi⟩, _, hp, hn⟩ :=
    updateHeatmap_buttons off w.allSubmissionData w.buttons year hne
  constructor
  · intro hmin
    have hd : (Widget.render off w year).buttons.prevDisabled = true := hp.2 (hmin lo vlo hlo)
    unfold clickPrev
    rw [if_pos hd]
  · intro hmax
    have hd : (Widget.render off w year).buttons.nextDisabled = true := hn.2 (hmax hi vhi hhi)
    unfold clickNext
    rw [if_pos hd]

theorem click_at_bound_witness :
    ((∀ k v, (k, v) ∈ (showing 0 yearsOfThreeLengths 999).allSubmissionData → 999 ≤ k) →
      clickPrev 0 (Widget.render 0 (showing 0 yearsOfThreeLengths 999) 999)
        = Widget.render 0 (showing 0 yearsOfThreeLengths 999) 999) ∧
    ((∀ k v, (k, v) ∈ (showing 0 yearsOfThreeLengths 999).allSubmissionData → k ≤ 999) →
      clickNext 0 (Widget.render 0 (showing 0 yearsOfThreeLengths 999) 999)
        = Widget.render 0 (showing 0 yearsOfThreeLengths 999) 999) :=
  click_at_bound 0 (showing 0 yearsOfThreeLengths 999) 999 (by decide)

/-! ## C5, C6, C10: the order of the years -/

/-- C5, evaluated on the years 999, 2026 and 10000: `sort()` orders them
10000, 2026, 999, so at the minimum year 999 the `prevYear` handler moves to
2026 and renders it, and at the maximum year 10000 the `nextYear` handler moves
to 2026 and renders it. -/
theorem prevYear_at_minimum_moves :
    yearsOf yearsOfThreeLengths = [10000, 2026, 999] ∧
    (prevYear 0 (showing 0 yearsOfThreeLengths 999)).currentYear = 2026 ∧
    (prevYear 0 (showing 0 yearsOfThreeLengths 999)).trace
      = [Effect.render 999, Effect.render 2026] ∧
    (nextYear 0 (showing 0 yearsOfThreeLengths 10000)).currentYear = 2026 ∧
    (nextYear 0 (showing 0 yearsOfThreeLengths 10000)).trace
      = [Effect.render 10000, Effect.render 2026] := by
  decide

/-- C6, evaluated on the years 999, 1000 and 2026: `sort()` orders them
1000, 2026, 999, so from 2026 the `prevYear` handler moves to 1000, and with
1000 selected (previous-year button enabled) it changes nothing although 999 is
a smaller year of the dataset; with 2026 selected the `nextYear` handler moves
to 999. -/
theorem prevYear_skips_smaller_year :
    yearsOf yearsAroundThousand = [1000, 2026, 999] ∧
    (prevYear 0 (showing 0 yearsAroundThousand 2026)).currentYear = 1000 ∧
    (showing 0 yearsAroundThousand 1000).buttons.prevDisabled = false ∧
    (prevYear 0 (showing 0 yearsAroundThousand 1000)).currentYear = 1000 ∧
    (prevYear 0 (showing 0 yearsAroundThousand 1000)).trace = [Effect.render 1000] ∧
    (nextYear 0 (showing 0 yearsAroundThousand 2026)).currentYear = 999 := by
  decide

/-- C10, evaluated on the years 999 and 10000 with the absent year 2026
selected (next-year button enabled): the `nextYear` handler moves to 10000, the
first year of the sorted list, which is not the minimum year 999. -/
theorem nextYear_from_absent_not_minimum :
    yearsOf yearsFarApart = [10000, 999] ∧
    (showing 0 yearsFarApart 2026).buttons.nextDisabled = false ∧
    (nextYear 0 (showing 0 yearsFarApart 2026)).currentYear = 10000 ∧
    (nextYear 0 (showing 0 yearsFarApart 2026)).trace
      = [Effect.render 2026, Effect.render 10000] := by
  decide

/-! ## C1: the displayed total -/

theorem roundToDouble_of_le (n : Int) (h : n.natAbs ≤ twoPow53) : roundToDouble n = n := by
  unfold roundToDouble
  simp only
  rw [if_pos h]

theorem datedAbsSum_cons (sq : Square) (rest : List Square) :
    datedAbsSum (sq :: rest) =
      (if sq.dataDate.isSome then sq.dataCount.natAbs else 0) + datedAbsSum rest := by
  unfold datedAbsSum
  by_cases h : sq.dataDate.isSome = true <;> simp [List.filter_cons, h]

/-- While the magnitudes stay within 2^53 no addition rounds: the running total
is the exact sum. -/
theorem foldl_tally_exact (squares : List Square) :
    ∀ acc : Int, acc.natAbs + datedAbsSum squares ≤ twoPow53 →
      squares.foldl tally acc = acc + datedCountSum squares := by
  induction squares with
  | nil => intro acc _; simp [datedCountSum_nil]
  | cons sq rest ih =>
    intro acc h
    rw [List.foldl_cons, datedCountSum_cons]
    rw [datedAbsSum_cons] at h
    by_cases hd : sq.dataDate.isSome = true
    · rw [if_pos hd] at h ⊢
      have hle : (acc + sq.dataCount).natAbs ≤ acc.natAbs + sq.dataCount.natAbs :=
        Int.natAbs_add_le _ _
      have hb : (acc + sq.dataCount).natAbs ≤ twoPow53 := by omega
      have ht : tally acc sq = acc + sq.dataCount := by
        unfold tally jsAdd
        rw [if_pos hd]
        exact roundToDouble_of_le _ hb
      have hrest : (acc + sq.dataCount).natAbs + datedAbsSum rest ≤ twoPow53 := by omega
      rw [ht, ih _ hrest]
      ring
    · rw [if_neg hd] at h ⊢
      have ht : tally acc sq = acc := by
        unfold tally
        rw [if_neg hd]
      have hrest : acc.natAbs + datedAbsSum rest ≤ twoPow53 := by omega
      rw [ht, ih _ hrest]
      ring

theorem length_flatten_of_seven {α : Type} (l : List (List α))
    (h : ∀ col ∈ l, col.length = 7) : l.flatten.length = 7 * l.length := by
  induction l with
  | nil => rfl
  | cons col rest ih =>
    rw [List.flatten_cons, List.length_append, List.length_cons,
      h col (List.mem_cons_self _ _), ih (fun c hc => h c (List.mem_cons_of_mem _ hc))]
    ring

theorem datedAbsSum_le_length_mul (squares : List Square) (K : Nat)
    (h : ∀ sq ∈ squares, sq.dataCount.natAbs ≤ K) : datedAbsSum squares ≤ squares.length * K := by
  induction squares with
  | nil => simp [datedAbsSum]
  | cons sq rest ih =>
    rw [datedAbsSum_cons, List.length_cons]
    have h1 := h sq (List.mem_cons_self _ _)
    have h2 := ih (fun x hx => h x (List.mem_cons_of_mem _ hx))
    have h3 : (rest.length + 1) * K = rest.length * K + K := by ring
    split_ifs <;> omega

theorem squareOf_count_le (yearData : YearData) (firstDay lastDay t : Int) (K : Nat)
    (hK : ∀ p ∈ yearData, p.2.natAbs ≤ K) :
    (squareOf yearData firstDay lastDay t).dataCount.natAbs ≤ K := by
  unfold squareOf
  split_ifs
  · cases hl : List.lookup (toISODate t) yearData with
    | none => simp
    | some c =>
      simp only [Option.getD_some]
      exact hK _ (lookup_mem _ _ _ hl)
  · simp

/-- The magnitudes of the rendered counts sum to at most 378 times the largest
magnitude in the bucket of the year: the grid has at most 54 columns of seven
squares. -/
theorem datedAbsSum_le (off : Int) (data : Dataset) (btn : Buttons) (year : Int) (K : Nat)
    (hK : ∀ p ∈ (data.lookup year).getD [], p.2.natAbs ≤ K) :
    datedAbsSum (updateHeatmap off data btn year).weeks.flatten ≤ 378 * K := by
  have hshape := updateHeatmap_shape_constructorYear off data btn year
  have hr := weekDay_range (dayFromYear (constructorYear year))
  have hd := daysInYearES_values (constructorYear year)
  have hlen : (updateHeatmap off data btn year).weeks.length ≤ 54 := by
    have h1 := hshape.1
    unfold ceilDiv at h1
    omega
  have hflat := length_flatten_of_seven _ hshape.2.1
  have hall : ∀ sq ∈ (updateHeatmap off data btn year).weeks.flatten,
      sq.dataCount.natAbs ≤ K := by
    intro sq hsq
    rw [updateHeatmap_weeks] at hsq
    simp only [List.mem_flatten, List.mem_map, List.mem_range] at hsq
    obtain ⟨col, ⟨w, _, rfl⟩, hmem⟩ := hsq
    simp only [List.mem_map, List.mem_range] at hmem
    obtain ⟨i, _, rfl⟩ := hmem
    exact squareOf_count_le _ _ _ _ K hK
  have hb := datedAbsSum_le_length_mul _ K hall
  rw [hflat] at hb
  calc datedAbsSum (updateHeatmap off data btn year).weeks.flatten
      ≤ 7 * (updateHeatmap off data btn year).weeks.length * K := hb
    _ ≤ 7 * 54 * K := Nat.mul_le_mul_right K (Nat.mul_le_mul_left 7 hlen)
    _ = 378 * K := by norm_num

/-- C1, as amended: for every dataset and every year, when the magnitudes of the
`data-count` values of the squares rendered with a date sum to at most 2^53 (so
that no addition of doubles rounds), the total that `updateHeatmap` writes into
the title and into the footer is the sum of the `data-count` values of the
squares rendered with a date; squares without a date are not counted. -/
theorem updateHeatmap_total_eq_sum (off : Int) (data : Dataset) (btn : Buttons) (year : Int)
    (hsafe : datedAbsSum (updateHeatmap off data btn year).weeks.flatten ≤ twoPow53) :
    (updateHeatmap off data btn year).heatmapTitle =
        toString (datedCountSum (updateHeatmap off data btn year).weeks.flatten)
          ++ " submissions in " ++ toString year ∧
    (updateHeatmap off data btn year).totalSubmissions =
        toString (datedCountSum (updateHeatmap off data btn year).weeks.flatten)
          ++ " total submissions" := by
  have h := foldl_tally_exact (updateHeatmap off data btn year).weeks.flatten 0
    (by simpa using hsafe)
  rw [zero_add, ← updateHeatmap_total off data btn year] at h
  rw [← h]
  exact ⟨rfl, rfl⟩

/-- C1, as amended, at a concrete input: three submissions on 2024-01-01. -/
theorem updateHeatmap_total_eq_sum_witness :
    datedAbsSum (updateHeatmap 0 newYear2024 ⟨false, false⟩ 2024).weeks.flatten ≤ twoPow53 ∧
    ((updateHeatmap 0 newYear2024 ⟨false, false⟩ 2024).heatmapTitle =
        toString (datedCountSum (updateHeatmap 0 newYear2024 ⟨false, false⟩ 2024).weeks.flatten)
          ++ " submissions in " ++ toString (2024 : Int) ∧
    (updateHeatmap 0 newYear2024 ⟨false, false⟩ 2024).totalSubmissions =
        toString (datedCountSum (updateHeatmap 0 newYear2024 ⟨false, false⟩ 2024).weeks.flatten)
          ++ " total submissions") :=
  ⟨le_trans (datedAbsSum_le 0 newYear2024 ⟨false, false⟩ 2024 3 (by decide)) (by decide),
    updateHeatmap_total_eq_sum 0 newYear2024 ⟨false, false⟩ 2024
      (le_trans (datedAbsSum_le 0 newYear2024 ⟨false, false⟩ 2024 3 (by decide)) (by decide))⟩

/-- C1 as stated fails past 2^53: with 2^53 submissions on 2024-01-01 and one on
2024-01-02 the two dated squares carry the counts 9007199254740992 and 1, whose
sum is 9007199254740993, while the title and the footer show 9007199254740992
(the sum of doubles rounds to even). -/
theorem updateHeatmap_total_rounds :
    (updateHeatmap 0 pastSafeInteger ⟨false, false⟩ 2024).heatmapTitle
      = "9007199254740992 submissions in 2024" ∧
    (updateHeatmap 0 pastSafeInteger ⟨false, false⟩ 2024).totalSubmissions
      = "9007199254740992 total submissions" ∧
    datedCountSum (updateHeatmap 0 pastSafeInteger ⟨false, false⟩ 2024).weeks.flatten
      = 9007199254740993 ∧
    ¬ ((updateHeatmap 0 pastSafeInteger ⟨false, false⟩ 2024).heatmapTitle =
        toString (datedCountSum
          (updateHeatmap 0 pastSafeInteger ⟨false, false⟩ 2024).weeks.flatten)
          ++ " submissions in " ++ toString (2024 : Int)) := by
  decide!

/-! ## C8: the slide controller -/

theorem length_modifyAt {α : Type} (f : α → α) (l : List α) (i : Nat) :
    (modifyAt f l i).length = l.length := by
  induction l generalizing i with
  | nil => rfl
  | cons x xs ih => cases i <;> simp [modifyAt, ih]

theorem getElem?_modifyAt {α : Type} (f : α → α) (l : List α) (i j : Nat) :
    (modifyAt f l i)[j]? = if j = i then l[j]?.map f else l[j]? := by
  induction l generalizing i j with
  | nil => simp [modifyAt]
  | cons x xs ih =>
    cases i with
    | zero => cases j <;> simp [modifyAt]
    | succ i => cases j <;> simp [modifyAt, ih]

theorem length_fadeOutLoop (s : List SlideClasses) (k : Nat) :
    (fadeOutLoop s k).length = s.length := by
  induction k with
  | zero => rfl
  | succ k ih => simp [fadeOutLoop, length_modifyAt, ih]

theorem getElem?_fadeOutLoop (s : List SlideClasses) (k j : Nat) :
    (fadeOutLoop s k)[j]? =
      s[j]?.map (fun c => if j < k then { c with fadeOut := true } else c) := by
  induction k with
  | zero => simp [fadeOutLoop]
  | succ k ih =>
    rw [fadeOutLoop, getElem?_modifyAt, ih]
    by_cases h : j = k
    · subst h
      cases hs : s[j]? <;> simp
    · by_cases h2 : j < k
      · have h3 : j < k + 1 := by omega
        simp [h, h2, h3]
      · have h3 : ¬ j < k + 1 := by omega
        simp [h, h2, h3]

theorem length_slideShape (n k : Nat) : (slideShape n k).length = n := by
  simp [slideShape]

theorem getElem?_slideShape (n k j : Nat) :
    (slideShape n k)[j]? = if j < n then some ⟨decide (j = k), decide (j < k)⟩ else none := by
  unfold slideShape
  by_cases h : j < n
  · simp [h, List.getElem?_map, List.getElem?_range h]
  · have h2 : n ≤ j := by omega
    simp [h, List.getElem?_eq_none, h2]

theorem activeAt_slideShape (n k : Nat) (h : k < n) : ActiveAt (slideShape n k) k := by
  refine ⟨by rw [length_slideShape]; exact h, ?_⟩
  intro i c hc
  rw [getElem?_slideShape] at hc
  by_cases hi : i < n
  · rw [if_pos hi] at hc
    cases hc
    simp
  · rw [if_neg hi] at hc
    cases hc

theorem length_onEntry (s : List SlideClasses) (e : Entry) : (onEntry s e).length = s.length := by
  unfold onEntry
  by_cases h : e.isIntersecting = true
  · simp [h, length_fadeOutLoop, length_modifyAt]
  · simp [h]

/-- An intersecting entry for slide `k` leaves exactly slide `k` active and the
slides before it faded out. -/
theorem onEntry_intersecting (s : List SlideClasses) (e : Entry)
    (hi : e.isIntersecting = true) (ht : e.target < s.length) :
    onEntry s e = slideShape s.length e.target := by
  apply List.ext_getElem?
  intro j
  unfold onEntry
  simp only [hi, if_true, ht]
  rw [getElem?_fadeOutLoop, getElem?_modifyAt, getElem?_slideShape]
  by_cases hj : j < s.length
  · simp only [hj, if_true, List.getElem?_map, List.getElem?_eq_getElem hj, Option.map_some']
    by_cases h1 : j = e.target
    · subst h1; simp
    · by_cases h2 : j < e.target <;> simp [h1, h2]
  · have h2 : s.length ≤ j := by omega
    simp [hj, List.getElem?_eq_none, h2]

theorem lastIntersecting_cons (e : Entry) (b : List Entry) :
    lastIntersecting (e :: b) =
      match lastIntersecting b with
      | some t => some t
      | none => if e.isIntersecting then some e.target else none := by
  unfold lastIntersecting
  rw [List.reverse_cons, List.find?_append]
  cases h : List.find? (fun e => e.isIntersecting) b.reverse with
  | some x => simp
  | none =>
    by_cases hi : e.isIntersecting = true <;> simp [List.find?, hi]

/-- One callback batch: the slides end in the shape of the last intersecting
entry, or unchanged when no entry intersects. -/
theorem slideObserverCallback_eq (b : List Entry) :
    ∀ s : List SlideClasses, (∀ e ∈ b, e.target < s.length) →
      slideObserverCallback s b =
        match lastIntersecting b with
        | some t => slideShape s.length t
        | none => s := by
  induction b with
  | nil => intro s _; rfl
  | cons e b ih =>
    intro s hv
    have hb : ∀ x ∈ b, x.target < (onEntry s e).length := by
      intro x hx
      rw [length_onEntry]
      exact hv x (List.mem_cons_of_mem _ hx)
    have step : slideObserverCallback s (e :: b) = slideObserverCallback (onEntry s e) b := rfl
    rw [step, ih (onEntry s e) hb, lastIntersecting_cons, length_onEntry]
    cases h : lastIntersecting b with
    | some t => rfl
    | none =>
      by_cases hi : e.isIntersecting = true
      · simp only [hi, if_true]
        exact onEntry_intersecting s e hi (hv e (List.mem_cons_self _ _))
      · simp only [hi]
        unfold onEntry
        simp [hi]

theorem lastIntersecting_lt (b : List Entry) (n t : Nat) (hv : ∀ e ∈ b, e.target < n)
    (h : lastIntersecting b = some t) : t < n := by
  unfold lastIntersecting at h
  cases hf : List.find? (fun e => e.isIntersecting) b.reverse with
  | none => rw [hf] at h; cases h
  | some x =>
    rw [hf] at h
    simp only [Option.map_some', Option.some.injEq] at h
    have hm := List.mem_of_find?_eq_some hf
    rw [List.mem_reverse] at hm
    rw [← h]
    exact hv x hm

theorem lastIntersecting_eq_none (b : List Entry) :
    lastIntersecting b = none ↔ ∀ e ∈ b, e.isIntersecting = false := by
  unfold lastIntersecting
  simp [List.find?_eq_none]

theorem initSlides_eq (n : Nat) (hn : 0 < n) : initSlides n = slideShape n 0 := by
  apply List.ext_getElem?
  intro j
  unfold initSlides markupSlides
  rw [if_pos hn, getElem?_modifyAt, getElem?_slideShape]
  by_cases hj : j < n
  · by_cases h0 : j = 0
    · subst h0; simp [hn]
    · simp [hj, h0, List.getElem?_replicate]
  · have h0 : j ≠ 0 := by omega
    simp [hj, h0, List.getElem?_replicate]

/-- Every reachable slide state has the shape of one active slide. -/
theorem runBatches_shape (n : Nat) (batches : List (List Entry)) :
    ∀ k, k < n → (∀ b ∈ batches, ∀ e ∈ b, e.target < n) →
      ∃ k2, k2 < n ∧ runBatches (slideShape n k) batches = slideShape n k2 := by
  induction batches with
  | nil => intro k hk _; exact ⟨k, hk, rfl⟩
  | cons b rest ih =>
    intro k hk hv
    have hb : ∀ e ∈ b, e.target < (slideShape n k).length := by
      intro e he
      rw [length_slideShape]
      exact hv b (List.mem_cons_self _ _) e he
    have step : runBatches (slideShape n k) (b :: rest)
        = runBatches (slideObserverCallback (slideShape n k) b) rest := rfl
    rw [step, slideObserverCallback_eq b _ hb, length_slideShape]
    have hrest : ∀ b2 ∈ rest, ∀ e ∈ b2, e.target < n :=
      fun b2 h2 => hv b2 (List.mem_cons_of_mem _ h2)
    cases h : lastIntersecting b with
    | none => exact ih k hk hrest
    | some t =>
      have ht : t < n :=
        lastIntersecting_lt b n t (hv b (List.mem_cons_self _ _)) h
      exact ih t ht hrest

/-- C8: with at least one slide, after initialisation and any sequence of
callback batches (whose entries target observed slides) exactly one slide
carries `active`, the slides before it carry `fade-out` and no other slide
carries either class; a further batch with an intersecting entry makes the
target of its last intersecting entry the active slide, and a batch without one
changes nothing. -/
theorem slides_one_active (n : Nat) (hn : 0 < n) (batches : List (List Entry))
    (hv : ∀ b ∈ batches, ∀ e ∈ b, e.target < n) :
    (∃ k, ActiveAt (runBatches (initSlides n) batches) k) ∧
    (∀ (b : List Entry), (∀ e ∈ b, e.target < n) →
      (∀ t, lastIntersecting b = some t →
        ActiveAt (slideObserverCallback (runBatches (initSlides n) batches) b) t) ∧
      ((∀ e ∈ b, e.isIntersecting = false) →
        slideObserverCallback (runBatches (initSlides n) batches) b
          = runBatches (initSlides n) batches)) := by
  rw [initSlides_eq n hn]
  obtain ⟨k, hk, hs⟩ := runBatches_shape n batches 0 hn hv
  rw [hs]
  refine ⟨⟨k, activeAt_slideShape n k hk⟩, ?_⟩
  intro b hb
  have hb2 : ∀ e ∈ b, e.target < (slideShape n k).length := by
    intro e he
    rw [length_slideShape]
    exact hb e he
  rw [slideObserverCallback_eq b _ hb2, length_slideShape]
  constructor
  · intro t ht
    rw [ht]
    exact activeAt_slideShape n t (lastIntersecting_lt b n t hb ht)
  · intro hnone
    rw [(lastIntersecting_eq_none b).2 hnone]

/-- C8 at a concrete input: three slides, two batches. -/
theorem slides_one_active_witness :
    (∃ k, ActiveAt (runBatches (initSlides 3) [[⟨2, true⟩, ⟨1, false⟩], [⟨0, false⟩]]) k) ∧
    (∀ (b : List Entry), (∀ e ∈ b, e.target < 3) →
      (∀ t, lastIntersecting b = some t →
        ActiveAt (slideObserverCallback
          (runBatches (initSlides 3) [[⟨2, true⟩, ⟨1, false⟩], [⟨0, false⟩]]) b) t) ∧
      ((∀ e ∈ b, e.isIntersecting = false) →
        slideObserverCallback (runBatches (initSlides 3) [[⟨2, true⟩, ⟨1, false⟩], [⟨0, false⟩]]) b
          = runBatches (initSlides 3) [[⟨2, true⟩, ⟨1, false⟩], [⟨0, false⟩]])) :=
  slides_one_active 3 (by decide) [[⟨2, true⟩, ⟨1, false⟩], [⟨0, false⟩]] (by decide)

/-! ## C9: one dataset is committed, then one render -/

theorem setProp_ne_nil {κ ν : Type} [BEq κ] (o : Dict κ ν) (k : κ) (v : ν) :
    setProp o k v ≠ [] := by
  cases o with
  | nil => simp [setProp]
  | cons p rest =>
    obtain ⟨k2, v2⟩ := p
    unfold setProp
    split_ifs <;> simp

theorem ownKeys_length_pos {κ ν : Type} [BEq κ] (o : Dict κ ν) :
    (ownKeys o).length > 0 ↔ o ≠ [] := by
  cases o with
  | nil => simp [ownKeys]
  | cons p rest =>
    obtain ⟨k, v⟩ := p
    simp [ownKeys]

theorem parseCell_undated (parseInt : String → Int) (fullYearOf : String → Int)
    (data : Dataset) (c : CalendarCell) (h : cellDate c = none) :
    parseCell parseInt fullYearOf data c = data := by
  unfold parseCell
  simp only [h]

theorem parseCell_dated (parseInt : String → Int) (fullYearOf : String → Int)
    (data : Dataset) (c : CalendarCell) (h : (cellDate c).isSome = true) :
    parseCell parseInt fullYearOf data c ≠ [] := by
  unfold parseCell
  cases hd : cellDate c with
  | none => rw [hd] at h; cases h
  | some date => exact setProp_ne_nil _ _ _

theorem parseCell_ne_nil (parseInt : String → Int) (fullYearOf : String → Int)
    (data : Dataset) (c : CalendarCell) (h : data ≠ []) :
    parseCell parseInt fullYearOf data c ≠ [] := by
  cases hd : cellDate c with
  | none => rw [parseCell_undated _ _ _ _ hd]; exact h
  | some date => exact parseCell_dated _ _ _ _ (by rw [hd]; rfl)

theorem foldl_parseCell_ne_nil (parseInt : String → Int) (fullYearOf : String → Int)
    (cells : List CalendarCell) :
    ∀ data : Dataset, cells.foldl (parseCell parseInt fullYearOf) data ≠ [] ↔
      (data ≠ [] ∨ cells.any (fun c => (cellDate c).isSome) = true) := by
  induction cells with
  | nil => intro data; simp
  | cons c rest ih =>
    intro data
    rw [List.foldl_cons, ih, List.any_cons, Bool.or_eq_true]
    constructor
    · rintro (h | h)
      · by_cases hc : (cellDate c).isSome = true
        · exact Or.inr (Or.inl hc)
        · have hn : cellDate c = none := by
            cases hd : cellDate c with
            | none => rfl
            | some d => rw [hd] at hc; exact absurd rfl hc
          rw [parseCell_undated _ _ _ _ hn] at h
          exact Or.inl h
      · exact Or.inr (Or.inr h)
    · rintro (h | h | h)
      · exact Or.inl (parseCell_ne_nil _ _ _ _ h)
      · exact Or.inl (parseCell_dated _ _ _ _ h)
      · exact Or.inr h

/-- `parseDMOJCalendar` returns the parsed object exactly when a cell has a
date, and the synthetic dataset otherwise. -/
theorem parseDMOJCalendar_eq (parseInt : String → Int) (fullYearOf : String → Int)
    (off now : Int) (rand : Nat → Rand) (cells : List CalendarCell) :
    parseDMOJCalendar parseInt fullYearOf off now rand cells =
      if cells.any (fun c => (cellDate c).isSome) then parsedCells parseInt fullYearOf cells
      else generateSampleData off now rand := by
  unfold parseDMOJCalendar
  simp only
  have h := foldl_parseCell_ne_nil parseInt fullYearOf cells []
  by_cases ha : cells.any (fun c => (cellDate c).isSome) = true
  · have h1 : parsedCells parseInt fullYearOf cells ≠ [] := h.2 (Or.inr ha)
    rw [if_pos ((ownKeys_length_pos _).2 h1), if_pos ha]
  · have h1 : ¬ parsedCells parseInt fullYearOf cells ≠ [] := by
      intro hne
      rcases h.1 hne with h2 | h2
      · exact h2 rfl
      · exact ha h2
    have h2 : ¬ (ownKeys (parsedCells parseInt fullYearOf cells)).length > 0 :=
      fun hp => h1 ((ownKeys_length_pos _).1 hp)
    rw [if_neg h2, if_neg ha]

/-- C9: for every outcome of the data acquisition step, the widget commits
exactly one dataset and then renders the current year exactly once; the dataset
is the parsed one when the fetch succeeded, a calendar element was found and a
cell with a date was parsed, and the output of `generateSampleData` in every
other case. -/
theorem initializeDMOJHeatmap_commits_once (parseInt : String → Int)
    (fullYearOf : String → Int) (off now0 now : Int) (rand : Nat → Rand) (btn : Buttons)
    (o : Outcome) :
    (initializeDMOJHeatmap parseInt fullYearOf off now0 now rand btn o).trace =
        [Effect.commit (datasetBySpec parseInt fullYearOf off now rand o),
          Effect.render (getFullYear off now0)] ∧
    (initializeDMOJHeatmap parseInt fullYearOf off now0 now rand btn o).allSubmissionData =
        datasetBySpec parseInt fullYearOf off now rand o ∧
    (initializeDMOJHeatmap parseInt fullYearOf off now0 now rand btn o).view =
        some (updateHeatmap off (datasetBySpec parseInt fullYearOf off now rand o) btn
          (getFullYear off now0)) := by
  cases o with
  | document calendar =>
    cases calendar with
    | none => exact ⟨rfl, rfl, rfl⟩
    | some cells =>
      unfold initializeDMOJHeatmap fetchSettled onData datasetBySpec
      simp only [parseDMOJCalendar_eq]
      exact ⟨rfl, rfl, rfl⟩
  | fetchRejected => exact ⟨rfl, rfl, rfl⟩
  | jsonRejected => exact ⟨rfl, rfl, rfl⟩
  | contentsThrows => exact ⟨rfl, rfl, rfl⟩

end Script
